import Mathlib

/-!
Verification of the log-monitor core of ToN-Simple-Save-Tool
(src/src-tauri/src/lib.rs), shallowly embedded in Lean.

Strings are modelled as `List Char`; the regular expressions of
`LogPatterns` are compiled by hand into scanning functions with the
leftmost-first semantics of the `regex` crate specialised to these
concrete patterns.
-/

abbrev Str := List Char

/-- Substring test (`str::contains` with a literal pattern, and the plain
substring regexes `You died\.`, `LOL JK, REBORN!`, `Lived in round\.`,
`Respawned\? Coward\.`, `Verified Round End`). -/
def str_contains : Str → Str → Bool
  | [], needle => needle.isEmpty
  | c :: rest, needle => needle.isPrefixOf (c :: rest) || str_contains rest needle

/-- Rust `str::trim` (ASCII whitespace). -/
def rust_trim (s : Str) : Str :=
  ((s.dropWhile Char.isWhitespace).reverse.dropWhile Char.isWhitespace).reverse

def split_ws_aux (acc : Str) : Str → List Str
  | [] => if acc.isEmpty then [] else [acc.reverse]
  | c :: rest =>
      if c.isWhitespace then
        if acc.isEmpty then split_ws_aux [] rest
        else acc.reverse :: split_ws_aux [] rest
      else split_ws_aux (c :: acc) rest

/-- Rust `str::split_whitespace`: maximal runs of non-whitespace characters. -/
def split_whitespace (s : Str) : List Str := split_ws_aux [] s

/-- Numeric value of a digit string. -/
def digits_to_nat (ds : Str) : Nat := ds.foldl (fun a c => a * 10 + (c.toNat - 48)) 0

/-- Rust `str::parse::<u32>` on a string of decimal digits: fails when empty or
when the value overflows the 32-bit range. -/
def parse_u32 (ds : Str) : Option Nat :=
  if ds.isEmpty then none
  else if digits_to_nat ds < 4294967296 then some (digits_to_nat ds) else none

/-- Character class `[0-9_,]` of the code regex. -/
def code_char (c : Char) : Bool := c.isDigit || c = '_' || c = ','

/-- The regex `\[START\]([0-9_,]+)\[END\]`: leftmost occurrence of
`[START]` followed by a non-empty maximal run of `[0-9_,]` followed by
`[END]`; returns capture group 1.  (Since `[` is not in the class, the
greedy run followed by the literal is exact.) -/
def code_capture : Str → Option Str
  | [] => none
  | c :: rest =>
      if ("[START]".data).isPrefixOf (c :: rest) then
        let after := (c :: rest).drop 7
        let run := after.takeWhile code_char
        let post := after.dropWhile code_char
        if !run.isEmpty && ("[END]".data).isPrefixOf post then some run
        else code_capture rest
      else code_capture rest

def rs_lead_lit : Str := "This round is taking place at ".data

def rs_mid : Str := " and the round type is ".data

/-- Lazy part of `(.+?) and the round type is (.+)$`: the shortest
non-empty group 1 such that the middle literal follows and a non-empty
group 2 runs to the end of the line. -/
def rs_split (g1rev : Str) : Str → Option (Str × Str)
  | [] => none
  | c :: r =>
      if rs_mid.isPrefixOf r && !(r.drop rs_mid.length).isEmpty then
        some ((c :: g1rev).reverse, r.drop rs_mid.length)
      else rs_split (c :: g1rev) r

/-- The regex `This round is taking place at (.+?) and the round type is (.+)$`. -/
def round_start_capture : Str → Option (Str × Str)
  | [] => none
  | c :: rest =>
      if rs_lead_lit.isPrefixOf (c :: rest) then
        match rs_split [] ((c :: rest).drop rs_lead_lit.length) with
        | some r => some r
        | none => round_start_capture rest
      else round_start_capture rest

def kl_lead_lit : Str := "Killers have been set - ".data

def kl_rt : Str := " // Round type is ".data

/-- Attempt `(\d+) (\d+) (\d+)(?: // Round type is (.+))?` right after the
`Killers have been set - ` literal. -/
def killers_at (r : Str) : Option (Str × Str × Str × Option Str) :=
  let d1 := r.takeWhile Char.isDigit
  let r1 := r.dropWhile Char.isDigit
  if d1.isEmpty then none else
  match r1 with
  | ' ' :: r2 =>
    let d2 := r2.takeWhile Char.isDigit
    let r3 := r2.dropWhile Char.isDigit
    if d2.isEmpty then none else
    match r3 with
    | ' ' :: r4 =>
      let d3 := r4.takeWhile Char.isDigit
      let r5 := r4.dropWhile Char.isDigit
      if d3.isEmpty then none else
      if kl_rt.isPrefixOf r5 && !(r5.drop kl_rt.length).isEmpty then
        some (d1, d2, d3, some (r5.drop kl_rt.length))
      else some (d1, d2, d3, none)
    | _ => none
  | _ => none

/-- The regex `Killers have been set - (\d+) (\d+) (\d+)(?: // Round type is (.+))?`. -/
def killers_capture : Str → Option (Str × Str × Str × Option Str)
  | [] => none
  | c :: rest =>
      if kl_lead_lit.isPrefixOf (c :: rest) then
        match killers_at ((c :: rest).drop kl_lead_lit.length) with
        | some r => some r
        | none => killers_capture rest
      else killers_capture rest

def death_match (l : Str) : Bool := str_contains l ("You died.".data)

def reborn_match (l : Str) : Bool := str_contains l ("LOL JK, REBORN!".data)

def survival_match (l : Str) : Bool := str_contains l ("Lived in round.".data)

def respawn_match (l : Str) : Bool := str_contains l ("Respawned? Coward.".data)

def round_end_match (l : Str) : Bool := str_contains l ("Verified Round End".data)

/-- The `WORLD_ID` constant. -/
def world_id : Str := "wrld_a61cdabe-1218-4287-9ffc-2a4d1414e5bd".data

/-- The `MAX_HISTORY` constant. -/
def max_history : Nat := 10

/-! ## Data model (§ DATA MODEL of lib.rs) -/

structure CodeEntry where
  code : Str
  timestamp : Str
  round_type : Option Str := none
  terror_names : Option (List Str) := none
  round_type_english : Option Str := none
deriving DecidableEq, Repr

structure RoundTypeStats where
  survivals : Nat := 0
  deaths : Nat := 0
deriving DecidableEq, Repr

/-- The `HashMap<String, RoundTypeStats>` of `RoundStats`, modelled as an
association list (iteration order is irrelevant to every claim). -/
abbrev RTMap := List (Str × RoundTypeStats)

/-- Lookup as in `HashMap::get`. -/
def rt_lookup : RTMap → Str → Option RoundTypeStats
  | [], _ => none
  | (k', v) :: rest, k => if k' = k then some v else rt_lookup rest k

/-- Effect of `stats.round_types.entry(rt).or_default();` with the entry left as is. -/
def rt_ensure : RTMap → Str → RTMap
  | [], k => [(k, {})]
  | (k', v) :: rest, k => if k' = k then (k', v) :: rest else (k', v) :: rt_ensure rest k

/-- Effect of `stats.round_types.entry(rt).or_default()` followed by a field update
on the entry. -/
def rt_modify : RTMap → Str → (RoundTypeStats → RoundTypeStats) → RTMap
  | [], k, f => [(k, f {})]
  | (k', v) :: rest, k, f => if k' = k then (k', f v) :: rest else (k', v) :: rt_modify rest k f

structure RoundStats where
  total_rounds : Nat := 0
  survivals : Nat := 0
  deaths : Nat := 0
  round_types : RTMap := []
deriving DecidableEq, Repr

structure AppData where
  history : List CodeEntry := []
  stats : RoundStats := {}
deriving DecidableEq, Repr

structure CurrentRoundInfo where
  is_active : Bool := false
  map_name : Option Str := none
  round_type : Option Str := none
  killers : List Nat := []
  is_dead : Bool := false
  save_code : Option Str := none
deriving DecidableEq, Repr

inductive VrOverlayPosition where
  | RightHand
  | LeftHand
  | Above
deriving DecidableEq, Repr

structure AppSettings where
  log_dir : Option Str := none
  auto_switch_tab : Bool := false
  vr_overlay_enabled : Bool := false
  vr_overlay_position : VrOverlayPosition := .RightHand
deriving DecidableEq, Repr

structure AppState where
  settings : AppSettings := {}
  data : AppData := {}
  current_round_type : Option Str := none
  current_round : CurrentRoundInfo := {}
  last_log_path : Option Str := none
  last_offset : Nat := 0
  last_copied_code : Option Str := none
deriving DecidableEq, Repr

structure TerrorAbility where
  label : Str
  value : Str
deriving DecidableEq, Repr

structure TerrorData where
  name : Str
  color : Option Str := none
  abilities : List TerrorAbility := []
deriving DecidableEq, Repr

/-- Modelled from the spec: the terror-data collaborator of §6
(`lookup(killerId, roundType) -> {name, color, abilities}` and
`translateRoundType(roundType) -> englishLabel`).  Its implementation
lives in `terror_data.rs`, which is not among the provided sources; the
spec requires only that both are pure functions with no side effects, so
they are carried as abstract function parameters. -/
structure Lookup where
  get_terror_data : Nat → Str → TerrorData
  round_type_to_english : Str → Str

inductive LogEvent where
  | None
  | StateChanged
  | RoundStarted
  | RoundEnded
deriving DecidableEq, Repr

/-! ## The round state machine: `process_log_line`, split into its
sequential blocks (one `step_*` definition per pattern block, applied in
the source order). -/

/-- Lines 744-772: round start. -/
def step_round_start (line : Str) (se : AppState × LogEvent) : AppState × LogEvent :=
  match round_start_capture line with
  | some (g1, g2) =>
      let s := se.1
      let map_name := some (rust_trim g1)
      let round_type := some (rust_trim g2)
      let s := { s with
        current_round := { is_active := true, map_name := map_name,
                           round_type := round_type, killers := [],
                           is_dead := false, save_code := none }
        current_round_type := round_type }
      let s :=
        match round_type with
        | some rt =>
            { s with data := { s.data with
                stats := { s.data.stats with
                  round_types := rt_ensure s.data.stats.round_types rt } } }
        | none => s
      (s, LogEvent.RoundStarted)
  | none => se

/-- Lines 774-805: killers set. -/
def step_killers (line : Str) (se : AppState × LogEvent) : AppState × LogEvent :=
  match killers_capture line with
  | some (d1, d2, d3, g4) =>
      let s := se.1
      let k1 := (parse_u32 d1).getD 0
      let k2 := (parse_u32 d2).getD 0
      let k3 := (parse_u32 d3).getD 0
      let s :=
        match g4 with
        | some rts =>
            let rt := rust_trim rts
            if s.current_round.round_type = none then
              { s with
                  current_round := { s.current_round with round_type := some rt }
                  current_round_type := some rt }
            else s
        | none => s
      let killers := [k1, k2, k3].filter (fun k => k != 0)
      ({ s with current_round := { s.current_round with killers := killers } },
       LogEvent.StateChanged)
  | none => se

/-- Lines 807-812: death. -/
def step_death (line : Str) (se : AppState × LogEvent) : AppState × LogEvent :=
  if death_match line then
    ({ se.1 with current_round := { se.1.current_round with is_dead := true } },
     LogEvent.StateChanged)
  else se

/-- Lines 814-819: reborn (death cancelled). -/
def step_reborn (line : Str) (se : AppState × LogEvent) : AppState × LogEvent :=
  if reborn_match line then
    ({ se.1 with current_round := { se.1.current_round with is_dead := false } },
     LogEvent.StateChanged)
  else se

/-- Lines 821-826: survival flag (no state mutation, only the event). -/
def step_survival (line : Str) (se : AppState × LogEvent) : AppState × LogEvent :=
  if survival_match line then (se.1, LogEvent.StateChanged) else se

/-- Lines 828-835: respawn voids the round. -/
def step_respawn (line : Str) (se : AppState × LogEvent) : AppState × LogEvent :=
  if respawn_match line then
    ({ se.1 with
        current_round := {}
        current_round_type := none }, LogEvent.RoundEnded)
  else se

/-- Lines 837-877: round end tallies the round.  Note that
`current_round_type.take()` also clears the tracked round type. -/
def step_round_end (line : Str) (se : AppState × LogEvent) : AppState × LogEvent :=
  if round_end_match line then
    let s := se.1
    let round_type := s.current_round_type.getD ("Unknown".data)
    let s := { s with current_round_type := none }
    let is_dead := s.current_round.is_dead
    let stats := s.data.stats
    let stats :=
      if is_dead then
        { stats with
            deaths := stats.deaths + 1
            round_types := rt_modify stats.round_types round_type
              (fun b => { b with deaths := b.deaths + 1 }) }
      else
        { stats with
            survivals := stats.survivals + 1
            round_types := rt_modify stats.round_types round_type
              (fun b => { b with survivals := b.survivals + 1 }) }
    ({ s with
        data := { s.data with stats := stats }
        current_round := {} },
     LogEvent.RoundEnded)
  else se

/-- Lines 929-932: evict oldest entries while the history exceeds
`MAX_HISTORY`. -/
def evict_old : List CodeEntry → List CodeEntry
  | [] => []
  | x :: t => if (x :: t).length > max_history then evict_old t else x :: t

/-- Lines 880-927: the `CodeEntry` built for a captured code, from the
state as it stands when the code block runs. -/
def mk_code_entry (lk : Lookup) (line code : Str) (s : AppState) : CodeEntry :=
  let toks := split_whitespace line
  let date := (toks.get? 0).getD []
  let time := (toks.get? 1).getD []
  let timestamp := if !date.isEmpty && !time.isEmpty then date ++ [' '] ++ time else []
  let round_type := s.current_round_type
  let tn_rte :=
    if s.current_round.is_active then
      let rt := round_type.getD ("Classic".data)
      let names := s.current_round.killers.map (fun id => (lk.get_terror_data id rt).name)
      let terror_names := if names.isEmpty then none else some names
      (terror_names, round_type.map lk.round_type_to_english)
    else (none, none)
  { code := code, timestamp := timestamp, round_type := round_type
    terror_names := tn_rte.1, round_type_english := tn_rte.2 }

/-- Lines 879-938: code capture appends a history entry (and records the
save code while a round is active), then evicts. -/
def step_code (lk : Lookup) (line : Str) (se : AppState × LogEvent) : AppState × LogEvent :=
  match code_capture line with
  | some code =>
      let s := se.1
      let entry := mk_code_entry lk line code s
      let s :=
        if s.current_round.is_active then
          { s with current_round := { s.current_round with save_code := some code } }
        else s
      let s := { s with data := { s.data with history := evict_old (s.data.history ++ [entry]) } }
      (s, match se.2 with | LogEvent.None => LogEvent.StateChanged | e => e)
  | none => se

/-- The state machine up to but excluding the code block. -/
def pre_code (line : Str) (s : AppState) : AppState × LogEvent :=
  step_round_end line (step_respawn line (step_survival line (step_reborn line
    (step_death line (step_killers line (step_round_start line (s, LogEvent.None)))))))

/-- Model of `process_log_line` (lines 740-941). -/
def process_log_line (lk : Lookup) (line : Str) (s : AppState) : AppState × LogEvent :=
  step_code lk line (pre_code line s)

/-- Model of `maybe_copy_latest_code` (lines 943-958).  The two booleans are the
outcomes of the clipboard collaborator: `clip_ok` is whether
`Clipboard::new()` succeeds, `set_ok` whether `set_text` succeeds.  The
source discards the result of `set_text` (`let _ = ...`), which is why
`set_ok` is not consulted. -/
def maybe_copy_latest_code (clip_ok set_ok : Bool) (line : Str) (s : AppState) : AppState :=
  if !str_contains line world_id then s
  else
    match (s.data.history.getLast?).map (fun e => e.code) with
    | some code =>
        if s.last_copied_code = some code then s
        else if clip_ok then
          let _ := set_ok
          { s with last_copied_code := some code }
        else s
    | none => s

/-- Folding the state machine alone over a sequence of lines. -/
def process_lines (lk : Lookup) (lines : List Str) (s : AppState) : AppState :=
  lines.foldl (fun s l => (process_log_line lk l s).1) s

/-! ## The poll tick of `start_log_monitor` (lines 988-1071) -/

structure TickFlags where
  should_emit_state : Bool := false
  round_started : Bool := false
  round_ended : Bool := false
  killers_changed : Bool := false
deriving DecidableEq, Repr

/-- The `match event` of lines 1000-1017: flag bookkeeping after one line,
reading the post-line state for the killers check. -/
def tick_flags_update (f : TickFlags) (ev : LogEvent) (s : AppState) : TickFlags :=
  match ev with
  | .RoundStarted => { f with should_emit_state := true, round_started := true }
  | .RoundEnded => { f with should_emit_state := true, round_ended := true }
  | .StateChanged =>
      { f with
          should_emit_state := true
          killers_changed :=
            if s.current_round.killers.isEmpty then f.killers_changed else true }
  | .None => f

/-- The per-line loop of lines 998-1019: `process_log_line`, flag update,
then `maybe_copy_latest_code`.  `clip` supplies the clipboard outcomes of
the i-th line of the tick. -/
def process_tick_from (lk : Lookup) (clip : Nat → Bool × Bool) (i : Nat) :
    List Str → AppState → TickFlags → AppState × TickFlags
  | [], s, f => (s, f)
  | l :: ls, s, f =>
      let r := process_log_line lk l s
      let f' := tick_flags_update f r.2 r.1
      let s' := maybe_copy_latest_code (clip i).1 (clip i).2 l r.1
      process_tick_from lk clip (i + 1) ls s' f'

def process_tick (lk : Lookup) (clip : Nat → Bool × Bool) (lines : List Str)
    (s : AppState) : AppState × TickFlags :=
  process_tick_from lk clip 0 lines s {}

/-- Struct `VrTerrorInfo` (lines 371-399), built from a `TerrorData` by the
`From` impl. -/
structure VrTerrorInfo where
  name : Str
  color : Option Str := none
  abilities : List TerrorAbility := []
deriving DecidableEq, Repr

def VrTerrorInfo.ofTerrorData (d : TerrorData) : VrTerrorInfo :=
  { name := d.name, color := d.color, abilities := d.abilities }

/-- The `VrCommand` tagged union (lines 401-415). -/
inductive VrCommand where
  | UpdateTerrors (terrors : List VrTerrorInfo) (round_type : Str)
  | SetPosition (position : VrOverlayPosition)
  | Clear
  | Quit
deriving DecidableEq, Repr

/-- The VR commands handed to `send_vr_command` within one tick, in order
(lines 1023-1071): `UpdateTerrors` when the cumulative `killers_changed`
flag is set and the end-of-tick killers list is non-empty, then `Clear`
when the cumulative `round_ended` flag is set; all of it only when
anything changed and the overlay is enabled. -/
def tick_vr_sends (lk : Lookup) (clip : Nat → Bool × Bool) (lines : List Str)
    (s : AppState) : List VrCommand :=
  let r := process_tick lk clip lines s
  let sf := r.1
  let f := r.2
  if f.should_emit_state then
    if sf.settings.vr_overlay_enabled then
      (if f.killers_changed && !sf.current_round.killers.isEmpty then
        [VrCommand.UpdateTerrors
          (sf.current_round.killers.map (fun id =>
            VrTerrorInfo.ofTerrorData
              (lk.get_terror_data id (sf.current_round.round_type.getD ("Classic".data)))))
          (sf.current_round.round_type.getD ("Classic".data))]
      else [])
      ++ (if f.round_ended then [VrCommand.Clear] else [])
    else []
  else []

/-! ## Delta splitting and the byte offset (lines 988-1020) -/

/-- Rust `str::split_inclusive('\n')`: segments each keeping their terminator,
with a final unterminated fragment kept and no empty trailing segment. -/
def split_incl_nl_aux (acc : Str) : Str → List Str
  | [] => if acc.isEmpty then [] else [acc.reverse]
  | c :: rest =>
      if c = '\n' then ((c :: acc).reverse) :: split_incl_nl_aux [] rest
      else split_incl_nl_aux (c :: acc) rest

def split_incl_nl (s : Str) : List Str := split_incl_nl_aux [] s

/-- The per-segment map of `str::lines`: strip one trailing `'\n'`, and
then one trailing `'\r'` only if the `'\n'` was stripped. -/
def lines_map_fn (seg : Str) : Str :=
  match seg.getLast? with
  | some '\n' =>
      let s := seg.dropLast
      match s.getLast? with
      | some '\r' => s.dropLast
      | _ => s
  | _ => seg

/-- Rust `str::lines` as used on the read delta (line 998): a trailing partial
line without a terminator is yielded as a line. -/
def rust_lines (s : Str) : List Str := (split_incl_nl s).map lines_map_fn

/-- UTF-8 encoding of a character (the byte representation underlying
`String::len` and `serde_json::to_vec`). -/
def utf8_encode_char (c : Char) : List Nat :=
  let n := c.toNat
  if n < 128 then [n]
  else if n < 2048 then [192 + n / 64, 128 + n % 64]
  else if n < 65536 then [224 + n / 4096, 128 + (n / 64) % 64, 128 + n % 64]
  else [240 + n / 262144, 128 + (n / 4096) % 64, 128 + (n / 64) % 64, 128 + n % 64]

def utf8_encode (s : Str) : List Nat := (s.map utf8_encode_char).flatten

/-- Rust `String::len`: the byte length of the UTF-8 representation. -/
def utf8_len (s : Str) : Nat := (utf8_encode s).length

/-- One monitor tick on a freshly read delta `buffer` (lines 988-1020):
process every line `str::lines` yields, then advance the tracked offset
by the byte length of the whole delta. -/
def monitor_tick (lk : Lookup) (clip : Nat → Bool × Bool) (buffer : Str)
    (s : AppState) : AppState × TickFlags :=
  let r := process_tick lk clip (rust_lines buffer) s
  ({ r.1 with last_offset := s.last_offset + utf8_len buffer }, r.2)

/-! ## Sidecar protocol: `serde_json` serialization of `VrCommand`,
base64 framing of `send_vr_command` (lines 658-674), and the raw line of
`stop_vr_overlay` (lines 640-644). -/

def hex_lower (n : Nat) : Char := ("0123456789abcdef".data).getD n '0'

/-- The `serde_json` escaping of one character inside a JSON string:
quote and backslash escaped, control characters as `\b \t \n \f \r` or
`\u00XX`, everything else written raw. -/
def json_escape_char (c : Char) : Str :=
  if c = '"' then ['\\', '"']
  else if c = '\\' then ['\\', '\\']
  else if c.toNat = 8 then "\\b".data
  else if c.toNat = 9 then "\\t".data
  else if c.toNat = 10 then "\\n".data
  else if c.toNat = 12 then "\\f".data
  else if c.toNat = 13 then "\\r".data
  else if c.toNat < 32 then
    "\\u00".data ++ [hex_lower (c.toNat / 16), hex_lower (c.toNat % 16)]
  else [c]

def json_string (s : Str) : Str := '"' :: ((s.map json_escape_char).flatten ++ ['"'])

def json_opt_string : Option Str → Str
  | none => "null".data
  | some s => json_string s

/-- Comma-joined JSON array body. -/
def json_array (xs : List Str) : Str := '[' :: (List.intercalate (",".data) xs ++ [']'])

def terror_ability_json (a : TerrorAbility) : Str :=
  "\x7b\"label\":".data ++ json_string a.label
    ++ ",\"value\":".data ++ json_string a.value ++ "\x7d".data

def vr_terror_info_json (t : VrTerrorInfo) : Str :=
  "\x7b\"name\":".data ++ json_string t.name
    ++ ",\"color\":".data ++ json_opt_string t.color
    ++ ",\"abilities\":".data ++ json_array (t.abilities.map terror_ability_json)
    ++ "\x7d".data

def vr_position_json : VrOverlayPosition → Str
  | .RightHand => json_string ("RightHand".data)
  | .LeftHand => json_string ("LeftHand".data)
  | .Above => json_string ("Above".data)

/-- Serialization by `serde_json::to_string` and `to_vec` of a `VrCommand` under
`#[serde(tag = "type")]` with the renamed variant tags. -/
def vr_command_json : VrCommand → Str
  | .UpdateTerrors terrors round_type =>
      "\x7b\"type\":\"update_terrors\",\"terrors\":".data
        ++ json_array (terrors.map vr_terror_info_json)
        ++ ",\"round_type\":".data ++ json_string round_type ++ "\x7d".data
  | .SetPosition p =>
      "\x7b\"type\":\"set_position\",\"position\":".data ++ vr_position_json p ++ "\x7d".data
  | .Clear => "\x7b\"type\":\"clear\"\x7d".data
  | .Quit => "\x7b\"type\":\"quit\"\x7d".data

def b64_alphabet : Str :=
  "ABCDEFGHIJKLMNOPQRSTUVWXYZabcdefghijklmnopqrstuvwxyz0123456789+/".data

def b64_char (n : Nat) : Char := b64_alphabet.getD n 'A'

/-- Standard base64 with padding over a byte list
(`base64::engine::general_purpose::STANDARD.encode`). -/
def base64_encode : List Nat → Str
  | [] => []
  | [a] => [b64_char (a / 4), b64_char (a % 4 * 16), '=', '=']
  | [a, b] => [b64_char (a / 4), b64_char (a % 4 * 16 + b / 16), b64_char (b % 16 * 4), '=']
  | a :: b :: c :: rest =>
      b64_char (a / 4) :: b64_char (a % 4 * 16 + b / 16)
        :: b64_char (b % 16 * 4 + c / 64) :: b64_char (c % 64) :: base64_encode rest

/-- Index of a character in the base64 alphabet. -/
def b64_val_aux (i : Nat) : Str → Char → Option Nat
  | [], _ => none
  | a :: rest, c => if a = c then some i else b64_val_aux (i + 1) rest c

def b64_val (c : Char) : Option Nat := b64_val_aux 0 b64_alphabet c

/-- A strict base64 decoder: the receiver side of the framing contract,
used only to state that the encoding round-trips. -/
def base64_decode : Str → Option (List Nat)
  | [] => some []
  | w :: x :: y :: z :: rest =>
      match b64_val w, b64_val x with
      | some a, some b =>
          if y = '=' ∧ z = '=' ∧ rest = [] then some [a * 4 + b / 16]
          else if z = '=' ∧ rest = [] then
            match b64_val y with
            | some c => some [a * 4 + b / 16, b % 16 * 16 + c / 4]
            | none => none
          else
            match b64_val y, b64_val z, base64_decode rest with
            | some c, some d, some tail =>
                some ((a * 4 + b / 16) :: (b % 16 * 16 + c / 4) :: (c % 4 * 64 + d) :: tail)
            | _, _, _ => none
      | _, _ => none
  | _ => none

/-- The bytes `send_vr_command` writes for one command (lines 661-669):
`writeln!` of `"b64:"` followed by the base64 of the serialized payload. -/
def send_vr_written_line (cmd : VrCommand) : Str :=
  "b64:".data ++ base64_encode (utf8_encode (vr_command_json cmd)) ++ ['\n']

/-- The bytes `stop_vr_overlay` writes for the graceful `Quit` (lines
640-644): `writeln!` of the plain `serde_json` string, with no marker and
no base64. -/
def stop_quit_written_line : Str := vr_command_json VrCommand.Quit ++ ['\n']

/-! ## Spec-side definitions, written from the spec's and claims' words,
for comparison with the code-side definitions above. -/

/-- The per-line trace of one tick: for each processed line, the event it
produced and the state right after the line (after the clipboard step,
which touches only `last_copied_code`). -/
def tick_trace_from (lk : Lookup) (clip : Nat → Bool × Bool) (i : Nat) :
    List Str → AppState → List (AppState × LogEvent)
  | [], _ => []
  | l :: ls, s =>
      let r := process_log_line lk l s
      let s' := maybe_copy_latest_code (clip i).1 (clip i).2 l r.1
      (s', r.2) :: tick_trace_from lk clip (i + 1) ls s'

def tick_trace (lk : Lookup) (clip : Nat → Bool × Bool) (lines : List Str)
    (s : AppState) : List (AppState × LogEvent) :=
  tick_trace_from lk clip 0 lines s

/-- Spec-side reading of C6: the killers list "newly became non-empty
during that tick", i.e. some line of the tick turned it from empty to
non-empty. -/
def killers_newly_nonempty_from (lk : Lookup) (clip : Nat → Bool × Bool) (i : Nat) :
    List Str → AppState → Bool
  | [], _ => false
  | l :: ls, s =>
      let r := process_log_line lk l s
      let s' := maybe_copy_latest_code (clip i).1 (clip i).2 l r.1
      (s.current_round.killers.isEmpty && !r.1.current_round.killers.isEmpty)
        || killers_newly_nonempty_from lk clip (i + 1) ls s'

def killers_newly_nonempty (lk : Lookup) (clip : Nat → Bool × Bool)
    (lines : List Str) (s : AppState) : Bool :=
  killers_newly_nonempty_from lk clip 0 lines s

/-- The invariant of C8 on the killers list. -/
def killers_ok (l : List Nat) : Prop := l.length ≤ 3 ∧ ∀ k ∈ l, k ≠ 0

/-- The history entries appended by one line: the single `CodeEntry` the
code block builds when the code pattern matches, from the state as it
stands when the block runs. -/
def appended_by (lk : Lookup) (l : Str) (s : AppState) : List CodeEntry :=
  match code_capture l with
  | some code => [mk_code_entry lk l code (pre_code l s).1]
  | none => []

/-- All history entries appended over a sequence of lines, in append
order. -/
def appended_during (lk : Lookup) : List Str → AppState → List CodeEntry
  | [], _ => []
  | l :: ls, s => appended_by lk l s ++ appended_during lk ls (process_log_line lk l s).1

/-! ## Concrete fixtures for witnesses and counterexamples -/

/-- A lookup with inert terror data, usable wherever the claims do not
depend on the collaborator's values. -/
def lk0 : Lookup :=
  { get_terror_data := fun _ _ => { name := [] }
    round_type_to_english := fun _ => [] }

def clip0 : Nat → Bool × Bool := fun _ => (false, false)

def c1_entry : CodeEntry := { code := "1234_5678".data, timestamp := [] }

def c1_state : AppState := { data := { history := [c1_entry] } }

def c2_rs_line : Str := "This round is taking place at Facility and the round type is Classic".data

def c2_death_line : Str := "You died.".data

def c2_respawn_line : Str := "Respawned? Coward.".data

def c2_round_end_line : Str := "Verified Round End".data

def c5_line : Str := "2024-01-01 20:00:00 [START]12_34_56[END]".data

def c5_state : AppState :=
  { current_round_type := some ("Classic".data)
    current_round := { is_active := true, round_type := some ("Classic".data), killers := [3, 7] } }

def c6_state : AppState :=
  { settings := { vr_overlay_enabled := true }
    current_round := { is_active := true, killers := [3] } }

/-! ## Lemmas about eviction and the history -/

theorem evict_old_eq_of_le (h : List CodeEntry) (hle : h.length ≤ max_history) :
    evict_old h = h := by
  cases h with
  | nil => rfl
  | cons x t =>
      unfold evict_old
      simp only [if_neg (by omega : ¬ (x :: t).length > max_history)]

theorem evict_old_suffix (h : List CodeEntry) : evict_old h <:+ h := by
  induction h with
  | nil => exact List.suffix_refl _
  | cons x t ih =>
      unfold evict_old
      by_cases hl : (x :: t).length > max_history
      · simp only [if_pos hl]
        exact ih.trans (List.suffix_cons x t)
      · simp only [if_neg hl]
        exact List.suffix_refl _

theorem evict_old_length (h : List CodeEntry) (hle : h.length ≤ max_history + 1) :
    (evict_old h).length ≤ max_history := by
  cases h with
  | nil => simp [evict_old, max_history]
  | cons x t =>
      unfold evict_old
      by_cases hl : (x :: t).length > max_history
      · simp only [if_pos hl]
        have ht : t.length ≤ max_history := by simp at hle ⊢; omega
        rw [evict_old_eq_of_le t ht]
        exact ht
      · simp only [if_neg hl]
        omega

theorem evict_old_getLast_concat (h : List CodeEntry) (x : CodeEntry) :
    (evict_old (h ++ [x])).getLast? = some x := by
  induction h with
  | nil =>
      rw [List.nil_append, evict_old_eq_of_le _ (by simp [max_history])]
      rfl
  | cons y t ih =>
      rw [List.cons_append]
      unfold evict_old
      by_cases hl : (y :: (t ++ [x])).length > max_history
      · simp only [if_pos hl]
        exact ih
      · simp only [if_neg hl]
        exact List.getLast?_concat (y :: t)

theorem isSuffix_append_right {α : Type} {l1 l2 : List α} (t : List α)
    (h : l1 <:+ l2) : l1 ++ t <:+ l2 ++ t := by
  obtain ⟨u, rfl⟩ := h
  exact ⟨u, by simp⟩

/-! ## Frame lemmas for the sequential blocks of `process_log_line` -/

theorem step_round_start_history (l : Str) (se : AppState × LogEvent) :
    (step_round_start l se).1.data.history = se.1.data.history := by
  unfold step_round_start
  cases h : round_start_capture l with
  | none => rfl
  | some p => cases p; simp

theorem step_killers_history (l : Str) (se : AppState × LogEvent) :
    (step_killers l se).1.data.history = se.1.data.history := by
  unfold step_killers
  cases h : killers_capture l with
  | none => rfl
  | some p =>
      obtain ⟨d1, d2, d3, g4⟩ := p
      cases g4 with
      | none => simp
      | some rts => by_cases hrt : se.1.current_round.round_type = none <;> simp [hrt]

theorem step_death_history (l : Str) (se : AppState × LogEvent) :
    (step_death l se).1.data.history = se.1.data.history := by
  unfold step_death
  by_cases h : death_match l <;> simp [h]

theorem step_reborn_history (l : Str) (se : AppState × LogEvent) :
    (step_reborn l se).1.data.history = se.1.data.history := by
  unfold step_reborn
  by_cases h : reborn_match l <;> simp [h]

theorem step_survival_history (l : Str) (se : AppState × LogEvent) :
    (step_survival l se).1.data.history = se.1.data.history := by
  unfold step_survival
  by_cases h : survival_match l <;> simp [h]

theorem step_respawn_history (l : Str) (se : AppState × LogEvent) :
    (step_respawn l se).1.data.history = se.1.data.history := by
  unfold step_respawn
  by_cases h : respawn_match l <;> simp [h]

theorem step_round_end_history (l : Str) (se : AppState × LogEvent) :
    (step_round_end l se).1.data.history = se.1.data.history := by
  unfold step_round_end
  by_cases h : round_end_match l <;> simp [h]

theorem pre_code_history (l : Str) (s : AppState) :
    (pre_code l s).1.data.history = s.data.history := by
  unfold pre_code
  rw [step_round_end_history, step_respawn_history, step_survival_history,
    step_reborn_history, step_death_history, step_killers_history,
    step_round_start_history]

theorem process_log_line_history (lk : Lookup) (l : Str) (s : AppState) :
    (process_log_line lk l s).1.data.history =
      match code_capture l with
      | some code => evict_old ((pre_code l s).1.data.history
          ++ [mk_code_entry lk l code (pre_code l s).1])
      | none => s.data.history := by
  unfold process_log_line step_code
  cases h : code_capture l with
  | none => simp [pre_code_history]
  | some code =>
      by_cases ha : (pre_code l s).1.current_round.is_active <;> simp [ha]

theorem process_log_line_history_suffix (lk : Lookup) (l : Str) (s : AppState) :
    (process_log_line lk l s).1.data.history <:+ s.data.history ++ appended_by lk l s := by
  rw [process_log_line_history]
  unfold appended_by
  cases h : code_capture l with
  | none => simp
  | some code =>
      rw [pre_code_history]
      exact evict_old_suffix _

theorem process_log_line_history_length (lk : Lookup) (l : Str) (s : AppState)
    (hle : s.data.history.length ≤ max_history) :
    (process_log_line lk l s).1.data.history.length ≤ max_history := by
  rw [process_log_line_history]
  cases h : code_capture l with
  | none => exact hle
  | some code =>
      rw [pre_code_history]
      apply evict_old_length
      simp
      omega

theorem process_lines_history (lk : Lookup) (lines : List Str) :
    ∀ s : AppState, s.data.history.length ≤ max_history →
      (process_lines lk lines s).data.history.length ≤ max_history
      ∧ (process_lines lk lines s).data.history <:+
          s.data.history ++ appended_during lk lines s := by
  induction lines with
  | nil =>
      intro s hle
      exact ⟨hle, by simp [process_lines, appended_during]⟩
  | cons l ls ih =>
      intro s hle
      have h1 := process_log_line_history_length lk l s hle
      have h2 := process_log_line_history_suffix lk l s
      obtain ⟨ihl, ihs⟩ := ih (process_log_line lk l s).1 h1
      constructor
      · simpa [process_lines] using ihl
      · have step : (process_lines lk ls (process_log_line lk l s).1).data.history <:+
            (s.data.history ++ appended_by lk l s)
              ++ appended_during lk ls (process_log_line lk l s).1 := by
          refine ihs.trans ?_
          exact isSuffix_append_right _ h2
        simpa [process_lines, appended_during, List.append_assoc] using step

/-! ## Identity lemmas: a block whose pattern does not fire leaves the
state-event pair untouched -/

theorem step_round_start_id (l : Str) (se : AppState × LogEvent)
    (h : round_start_capture l = none) : step_round_start l se = se := by
  unfold step_round_start
  rw [h]

theorem step_killers_id (l : Str) (se : AppState × LogEvent)
    (h : killers_capture l = none) : step_killers l se = se := by
  unfold step_killers
  rw [h]

theorem step_death_id (l : Str) (se : AppState × LogEvent)
    (h : death_match l = false) : step_death l se = se := by
  unfold step_death
  rw [h]
  rfl

theorem step_reborn_id (l : Str) (se : AppState × LogEvent)
    (h : reborn_match l = false) : step_reborn l se = se := by
  unfold step_reborn
  rw [h]
  rfl

theorem step_survival_id (l : Str) (se : AppState × LogEvent)
    (h : survival_match l = false) : step_survival l se = se := by
  unfold step_survival
  rw [h]
  rfl

theorem step_respawn_id (l : Str) (se : AppState × LogEvent)
    (h : respawn_match l = false) : step_respawn l se = se := by
  unfold step_respawn
  rw [h]
  rfl

theorem step_round_end_id (l : Str) (se : AppState × LogEvent)
    (h : round_end_match l = false) : step_round_end l se = se := by
  unfold step_round_end
  rw [h]
  rfl

theorem step_code_id (lk : Lookup) (l : Str) (se : AppState × LogEvent)
    (h : code_capture l = none) : step_code lk l se = se := by
  unfold step_code
  rw [h]

/-! ## Field frame lemmas for blocks that do fire -/

theorem step_death_killers (l : Str) (se : AppState × LogEvent) :
    (step_death l se).1.current_round.killers = se.1.current_round.killers := by
  unfold step_death
  by_cases h : death_match l <;> simp [h]

theorem step_reborn_killers (l : Str) (se : AppState × LogEvent) :
    (step_reborn l se).1.current_round.killers = se.1.current_round.killers := by
  unfold step_reborn
  by_cases h : reborn_match l <;> simp [h]

theorem step_survival_state (l : Str) (se : AppState × LogEvent) :
    (step_survival l se).1 = se.1 := by
  unfold step_survival
  by_cases h : survival_match l <;> simp [h]

theorem step_code_killers (lk : Lookup) (l : Str) (se : AppState × LogEvent) :
    (step_code lk l se).1.current_round.killers = se.1.current_round.killers := by
  unfold step_code
  cases h : code_capture l with
  | none => rfl
  | some code => by_cases ha : se.1.current_round.is_active <;> simp [ha]

theorem step_round_start_killers_some (l : Str) (se : AppState × LogEvent)
    (p : Str × Str) (h : round_start_capture l = some p) :
    (step_round_start l se).1.current_round.killers = [] := by
  unfold step_round_start
  rw [h]

theorem step_killers_killers_some (l : Str) (se : AppState × LogEvent)
    (d1 d2 d3 : Str) (g4 : Option Str)
    (h : killers_capture l = some (d1, d2, d3, g4)) :
    (step_killers l se).1.current_round.killers =
      [(parse_u32 d1).getD 0, (parse_u32 d2).getD 0, (parse_u32 d3).getD 0].filter
        (fun k => k != 0) := by
  unfold step_killers
  rw [h]

theorem step_respawn_killers_true (l : Str) (se : AppState × LogEvent)
    (h : respawn_match l = true) :
    (step_respawn l se).1.current_round.killers = [] := by
  unfold step_respawn
  rw [h]
  rfl

theorem step_round_end_killers_true (l : Str) (se : AppState × LogEvent)
    (h : round_end_match l = true) :
    (step_round_end l se).1.current_round.killers = [] := by
  unfold step_round_end
  rw [h]
  by_cases hd : se.1.current_round.is_dead <;> simp [hd]

/-! ## Stats frame lemmas -/

theorem step_killers_stats (l : Str) (se : AppState × LogEvent) :
    (step_killers l se).1.data.stats = se.1.data.stats := by
  unfold step_killers
  cases h : killers_capture l with
  | none => rfl
  | some p =>
      obtain ⟨d1, d2, d3, g4⟩ := p
      cases g4 with
      | none => simp
      | some rts => by_cases hrt : se.1.current_round.round_type = none <;> simp [hrt]

theorem step_death_stats (l : Str) (se : AppState × LogEvent) :
    (step_death l se).1.data.stats = se.1.data.stats := by
  unfold step_death
  by_cases h : death_match l <;> simp [h]

theorem step_reborn_stats (l : Str) (se : AppState × LogEvent) :
    (step_reborn l se).1.data.stats = se.1.data.stats := by
  unfold step_reborn
  by_cases h : reborn_match l <;> simp [h]

theorem step_respawn_stats (l : Str) (se : AppState × LogEvent) :
    (step_respawn l se).1.data.stats = se.1.data.stats := by
  unfold step_respawn
  by_cases h : respawn_match l <;> simp [h]

theorem step_code_stats (lk : Lookup) (l : Str) (se : AppState × LogEvent) :
    (step_code lk l se).1.data.stats = se.1.data.stats := by
  unfold step_code
  cases h : code_capture l with
  | none => rfl
  | some code => by_cases ha : se.1.current_round.is_active <;> simp [ha]

/-- Any line on which neither the round-start nor the round-end pattern
fires leaves `stats` untouched. -/
theorem process_log_line_stats_frame (lk : Lookup) (l : Str) (s : AppState)
    (h1 : round_start_capture l = none) (h2 : round_end_match l = false) :
    (process_log_line lk l s).1.data.stats = s.data.stats := by
  unfold process_log_line pre_code
  rw [step_round_start_id l _ h1, step_round_end_id l _ h2]
  rw [step_code_stats, step_respawn_stats]
  rw [step_survival_state, step_reborn_stats, step_death_stats, step_killers_stats]

/-! ## Whole-line characterizations for lines that fire exactly one
pattern -/

theorem process_death_line (lk : Lookup) (l : Str) (s : AppState)
    (hd : death_match l = true)
    (h1 : round_start_capture l = none) (h2 : killers_capture l = none)
    (h3 : reborn_match l = false) (h4 : survival_match l = false)
    (h5 : respawn_match l = false) (h6 : round_end_match l = false)
    (h7 : code_capture l = none) :
    process_log_line lk l s =
      ({ s with current_round := { s.current_round with is_dead := true } },
       LogEvent.StateChanged) := by
  unfold process_log_line pre_code
  rw [step_round_start_id l _ h1, step_killers_id l _ h2]
  unfold step_death
  rw [hd]
  rw [step_reborn_id l _ h3, step_survival_id l _ h4, step_respawn_id l _ h5,
    step_round_end_id l _ h6, step_code_id lk l _ h7]
  rfl

theorem process_reborn_line (lk : Lookup) (l : Str) (s : AppState)
    (hr : reborn_match l = true)
    (h1 : round_start_capture l = none) (h2 : killers_capture l = none)
    (h3 : death_match l = false) (h4 : survival_match l = false)
    (h5 : respawn_match l = false) (h6 : round_end_match l = false)
    (h7 : code_capture l = none) :
    process_log_line lk l s =
      ({ s with current_round := { s.current_round with is_dead := false } },
       LogEvent.StateChanged) := by
  unfold process_log_line pre_code
  rw [step_round_start_id l _ h1, step_killers_id l _ h2, step_death_id l _ h3]
  unfold step_reborn
  rw [hr]
  rw [step_survival_id l _ h4, step_respawn_id l _ h5,
    step_round_end_id l _ h6, step_code_id lk l _ h7]
  rfl

theorem process_respawn_line (lk : Lookup) (l : Str) (s : AppState)
    (hr : respawn_match l = true)
    (h1 : round_start_capture l = none) (h2 : killers_capture l = none)
    (h3 : death_match l = false) (h4 : reborn_match l = false)
    (h5 : survival_match l = false) (h6 : round_end_match l = false)
    (h7 : code_capture l = none) :
    process_log_line lk l s =
      ({ s with current_round := {}, current_round_type := none },
       LogEvent.RoundEnded) := by
  unfold process_log_line pre_code
  rw [step_round_start_id l _ h1, step_killers_id l _ h2, step_death_id l _ h3,
    step_reborn_id l _ h4, step_survival_id l _ h5]
  unfold step_respawn
  rw [hr]
  rw [step_round_end_id l _ h6, step_code_id lk l _ h7]
  rfl

theorem process_round_end_line (lk : Lookup) (l : Str) (s : AppState)
    (hre : round_end_match l = true)
    (h1 : round_start_capture l = none) (h2 : killers_capture l = none)
    (h3 : death_match l = false) (h4 : reborn_match l = false)
    (h5 : survival_match l = false) (h6 : respawn_match l = false)
    (h7 : code_capture l = none) :
    process_log_line lk l s =
      ({ s with
          current_round_type := none
          current_round := {}
          data := { s.data with stats :=
            if s.current_round.is_dead then
              { s.data.stats with
                  deaths := s.data.stats.deaths + 1
                  round_types := rt_modify s.data.stats.round_types
                    (s.current_round_type.getD ("Unknown".data))
                    (fun b => { b with deaths := b.deaths + 1 }) }
            else
              { s.data.stats with
                  survivals := s.data.stats.survivals + 1
                  round_types := rt_modify s.data.stats.round_types
                    (s.current_round_type.getD ("Unknown".data))
                    (fun b => { b with survivals := b.survivals + 1 }) } } },
       LogEvent.RoundEnded) := by
  unfold process_log_line pre_code
  rw [step_round_start_id l _ h1, step_killers_id l _ h2, step_death_id l _ h3,
    step_reborn_id l _ h4, step_survival_id l _ h5, step_respawn_id l _ h6]
  unfold step_round_end
  rw [hre]
  rw [step_code_id lk l _ h7]
  rfl

theorem process_round_start_line (lk : Lookup) (l : Str) (s : AppState)
    (g1 g2 : Str) (hrs : round_start_capture l = some (g1, g2))
    (h2 : killers_capture l = none)
    (h3 : death_match l = false) (h4 : reborn_match l = false)
    (h5 : survival_match l = false) (h6 : respawn_match l = false)
    (h7 : round_end_match l = false) (h8 : code_capture l = none) :
    process_log_line lk l s =
      ({ s with
          current_round := { is_active := true, map_name := some (rust_trim g1),
                             round_type := some (rust_trim g2), killers := [],
                             is_dead := false, save_code := none }
          current_round_type := some (rust_trim g2)
          data := { s.data with stats := { s.data.stats with
            round_types := rt_ensure s.data.stats.round_types (rust_trim g2) } } },
       LogEvent.RoundStarted) := by
  unfold process_log_line pre_code
  unfold step_round_start
  rw [hrs]
  rw [step_killers_id l _ h2, step_death_id l _ h3, step_reborn_id l _ h4,
    step_survival_id l _ h5, step_respawn_id l _ h6, step_round_end_id l _ h7,
    step_code_id lk l _ h8]

theorem process_code_line (lk : Lookup) (l : Str) (s : AppState) (code : Str)
    (hc : code_capture l = some code)
    (h1 : round_start_capture l = none) (h2 : killers_capture l = none)
    (h3 : death_match l = false) (h4 : reborn_match l = false)
    (h5 : survival_match l = false) (h6 : respawn_match l = false)
    (h7 : round_end_match l = false) :
    process_log_line lk l s =
      ({ s with
          current_round :=
            if s.current_round.is_active then
              { s.current_round with save_code := some code }
            else s.current_round
          data := { s.data with
            history := evict_old (s.data.history ++ [mk_code_entry lk l code s]) } },
       LogEvent.StateChanged) := by
  unfold process_log_line pre_code
  rw [step_round_start_id l _ h1, step_killers_id l _ h2, step_death_id l _ h3,
    step_reborn_id l _ h4, step_survival_id l _ h5, step_respawn_id l _ h6,
    step_round_end_id l _ h7]
  unfold step_code
  rw [hc]
  by_cases ha : s.current_round.is_active <;> simp [ha]

/-! ## Lookup lemmas for the round-type map -/

theorem rt_ensure_lookup_self (m : RTMap) (k : Str) :
    rt_lookup (rt_ensure m k) k = some ((rt_lookup m k).getD {}) := by
  induction m with
  | nil => simp [rt_ensure, rt_lookup]
  | cons p rest ih =>
      obtain ⟨k', v⟩ := p
      by_cases h : k' = k
      · subst h
        simp [rt_ensure, rt_lookup]
      · simp [rt_ensure, rt_lookup, h, ih]

theorem rt_ensure_lookup_other (m : RTMap) (k k' : Str) (h : k' ≠ k) :
    rt_lookup (rt_ensure m k) k' = rt_lookup m k' := by
  induction m with
  | nil =>
      simp only [rt_ensure, rt_lookup]
      rw [if_neg (fun hh => h hh.symm)]
  | cons p rest ih =>
      obtain ⟨ka, v⟩ := p
      by_cases hk : ka = k
      · subst hk
        simp [rt_ensure, rt_lookup]
      · have hstep : rt_ensure ((ka, v) :: rest) k = (ka, v) :: rt_ensure rest k := by
          simp [rt_ensure, hk]
        rw [hstep]
        by_cases hk' : ka = k' <;> simp [rt_lookup, hk', ih]

theorem rt_modify_lookup_self (m : RTMap) (k : Str) (f : RoundTypeStats → RoundTypeStats) :
    rt_lookup (rt_modify m k f) k = some (f ((rt_lookup m k).getD {})) := by
  induction m with
  | nil => simp [rt_modify, rt_lookup]
  | cons p rest ih =>
      obtain ⟨k', v⟩ := p
      by_cases h : k' = k
      · subst h
        simp [rt_modify, rt_lookup]
      · simp [rt_modify, rt_lookup, h, ih]

theorem rt_modify_lookup_other (m : RTMap) (k k' : Str)
    (f : RoundTypeStats → RoundTypeStats) (h : k' ≠ k) :
    rt_lookup (rt_modify m k f) k' = rt_lookup m k' := by
  induction m with
  | nil =>
      simp only [rt_modify, rt_lookup]
      rw [if_neg (fun hh => h hh.symm)]
  | cons p rest ih =>
      obtain ⟨ka, v⟩ := p
      by_cases hk : ka = k
      · subst hk
        have hne : ¬ ka = k' := fun hh => h hh.symm
        simp [rt_modify, rt_lookup, hne]
      · have hstep : rt_modify ((ka, v) :: rest) k f = (ka, v) :: rt_modify rest k f := by
          simp [rt_modify, hk]
        rw [hstep]
        by_cases hk' : ka = k' <;> simp [rt_lookup, hk', ih]

/-! ## The killers invariant -/

theorem process_log_line_killers_chain (lk : Lookup) (l : Str) (s : AppState) :
    (process_log_line lk l s).1.current_round.killers =
      (step_round_end l (step_respawn l (step_survival l (step_reborn l (step_death l
        (step_killers l (step_round_start l (s, LogEvent.None)))))))).1.current_round.killers := by
  unfold process_log_line pre_code
  rw [step_code_killers]

theorem killers_ok_nil : killers_ok [] := ⟨by simp, by simp⟩

theorem killers_ok_filter (a b c : Nat) :
    killers_ok (([a, b, c]).filter (fun k => k != 0)) := by
  constructor
  · have := List.length_filter_le (fun k => k != 0) [a, b, c]
    simpa using this
  · intro k hk
    have := List.mem_filter.1 hk
    simpa using this.2

theorem process_log_line_killers_ok (lk : Lookup) (l : Str) (s : AppState)
    (h : killers_ok s.current_round.killers) :
    killers_ok ((process_log_line lk l s).1.current_round.killers) := by
  rw [process_log_line_killers_chain]
  by_cases hre : round_end_match l = true
  · rw [step_round_end_killers_true l _ hre]
    exact killers_ok_nil
  · rw [step_round_end_id l _ (by simpa using hre)]
    by_cases hrsp : respawn_match l = true
    · rw [step_respawn_killers_true l _ hrsp]
      exact killers_ok_nil
    · rw [step_respawn_id l _ (by simpa using hrsp)]
      rw [step_survival_state, step_reborn_killers, step_death_killers]
      cases hk : killers_capture l with
      | some p =>
          obtain ⟨d1, d2, d3, g4⟩ := p
          rw [step_killers_killers_some l _ d1 d2 d3 g4 hk]
          exact killers_ok_filter _ _ _
      | none =>
          rw [step_killers_id l _ hk]
          cases hrs : round_start_capture l with
          | some p =>
              rw [step_round_start_killers_some l _ p hrs]
              exact killers_ok_nil
          | none =>
              rw [step_round_start_id l _ hrs]
              exact h

theorem process_lines_killers_ok (lk : Lookup) (lines : List Str) :
    ∀ s : AppState, killers_ok s.current_round.killers →
      killers_ok ((process_lines lk lines s).current_round.killers) := by
  induction lines with
  | nil => intro s h; exact h
  | cons l ls ih =>
      intro s h
      have h1 := process_log_line_killers_ok lk l s h
      simpa [process_lines] using ih (process_log_line lk l s).1 h1

theorem process_killers_line_killers (lk : Lookup) (l : Str) (s : AppState)
    (d1 d2 d3 : Str) (g4 : Option Str)
    (hk : killers_capture l = some (d1, d2, d3, g4))
    (h1 : respawn_match l = false) (h2 : round_end_match l = false) :
    (process_log_line lk l s).1.current_round.killers =
      [(parse_u32 d1).getD 0, (parse_u32 d2).getD 0, (parse_u32 d3).getD 0].filter
        (fun k => k != 0) := by
  rw [process_log_line_killers_chain, step_round_end_id l _ h2, step_respawn_id l _ h1,
    step_survival_state, step_reborn_killers, step_death_killers,
    step_killers_killers_some l _ d1 d2 d3 g4 hk]

theorem process_round_start_line_killers (lk : Lookup) (l : Str) (s : AppState)
    (p : Str × Str) (hrs : round_start_capture l = some p)
    (hk : killers_capture l = none) :
    (process_log_line lk l s).1.current_round.killers = [] := by
  rw [process_log_line_killers_chain]
  by_cases hre : round_end_match l = true
  · rw [step_round_end_killers_true l _ hre]
  · rw [step_round_end_id l _ (by simpa using hre)]
    by_cases hrsp : respawn_match l = true
    · rw [step_respawn_killers_true l _ hrsp]
    · rw [step_respawn_id l _ (by simpa using hrsp)]
      rw [step_survival_state, step_reborn_killers, step_death_killers,
        step_killers_id l _ hk, step_round_start_killers_some l _ p hrs]

theorem process_respawn_line_killers (lk : Lookup) (l : Str) (s : AppState)
    (hrsp : respawn_match l = true) :
    (process_log_line lk l s).1.current_round.killers = [] := by
  rw [process_log_line_killers_chain]
  by_cases hre : round_end_match l = true
  · rw [step_round_end_killers_true l _ hre]
  · rw [step_round_end_id l _ (by simpa using hre)]
    rw [step_respawn_killers_true l _ hrsp]

/-! ## Claim theorems -/

/-- C3: for every sequence of lines fed to the state machine, starting
from any state whose history holds at most 10 entries, the history length
never exceeds 10, and the surviving entries are a suffix of the original
history followed by the entries appended during the run, in append order
(i.e. the most recently appended entries, in order). -/
theorem c3_history_cap_and_order (lk : Lookup) (lines : List Str) (s : AppState)
    (h : s.data.history.length ≤ 10) :
    (process_lines lk lines s).data.history.length ≤ 10
    ∧ (process_lines lk lines s).data.history <:+
        s.data.history ++ appended_during lk lines s :=
  process_lines_history lk lines s h

/-- C3 witness: a concrete run of the state machine. -/
theorem c3_witness :
    (process_lines lk0 ["2024-01-01 20:00:00 [START]12_34_56[END]".data] c1_state).data.history.length ≤ 10
    ∧ (process_lines lk0 ["2024-01-01 20:00:00 [START]12_34_56[END]".data] c1_state).data.history <:+
        c1_state.data.history
          ++ appended_during lk0 ["2024-01-01 20:00:00 [START]12_34_56[END]".data] c1_state :=
  c3_history_cap_and_order lk0 _ c1_state (by decide)

/-- C8: after any sequence of lines from a state whose killers list is
well-formed, the killers list holds only nonzero ids and at most three of
them; a killers-set line replaces the list with the nonzero subset of the
three captured ids (when the same line does not also void or end the
round); a round-start line resets it to empty, and a respawn line resets
it to empty. -/
theorem c8_killers_invariant (lk : Lookup) :
    (∀ (lines : List Str) (s : AppState), killers_ok s.current_round.killers →
       killers_ok ((process_lines lk lines s).current_round.killers))
    ∧ (∀ (l : Str) (s : AppState) (d1 d2 d3 : Str) (g4 : Option Str),
         killers_capture l = some (d1, d2, d3, g4) → respawn_match l = false →
         round_end_match l = false →
         (process_log_line lk l s).1.current_round.killers =
           [(parse_u32 d1).getD 0, (parse_u32 d2).getD 0, (parse_u32 d3).getD 0].filter
             (fun k => k != 0))
    ∧ (∀ (l : Str) (s : AppState) (p : Str × Str),
         round_start_capture l = some p → killers_capture l = none →
         (process_log_line lk l s).1.current_round.killers = [])
    ∧ (∀ (l : Str) (s : AppState), respawn_match l = true →
         (process_log_line lk l s).1.current_round.killers = []) :=
  ⟨fun lines s h => process_lines_killers_ok lk lines s h,
   fun l s d1 d2 d3 g4 hk h1 h2 => process_killers_line_killers lk l s d1 d2 d3 g4 hk h1 h2,
   fun l s p hrs hk => process_round_start_line_killers lk l s p hrs hk,
   fun l s hrsp => process_respawn_line_killers lk l s hrsp⟩

/-- C8 witness: concrete lines exercising all four parts. -/
theorem c8_witness :
    killers_ok ((process_lines lk0 ["Killers have been set - 3 0 7".data]
      ({} : AppState)).current_round.killers)
    ∧ (process_log_line lk0 ("Killers have been set - 3 0 7".data)
        ({} : AppState)).1.current_round.killers = [3, 7]
    ∧ (process_log_line lk0 c2_rs_line c5_state).1.current_round.killers = []
    ∧ (process_log_line lk0 c2_respawn_line c5_state).1.current_round.killers = [] := by
  refine ⟨(c8_killers_invariant lk0).1 _ _ ⟨by decide, by decide⟩, ?_, ?_, ?_⟩
  · rw [(c8_killers_invariant lk0).2.1 ("Killers have been set - 3 0 7".data)
      ({} : AppState) ("3".data) ("0".data) ("7".data) none (by decide) (by decide) (by decide)]
    decide
  · exact (c8_killers_invariant lk0).2.2.1 c2_rs_line c5_state
      ("Facility".data, "Classic".data) (by decide) (by decide)
  · exact (c8_killers_invariant lk0).2.2.2 c2_respawn_line c5_state (by decide)

/-- Stats after a line on which the round-start pattern fires and the
round-end pattern does not: the only change is the lazy registration of
the captured round type. -/
theorem process_round_start_stats (lk : Lookup) (l : Str) (s : AppState)
    (g1 g2 : Str) (hrs : round_start_capture l = some (g1, g2))
    (h2 : round_end_match l = false) :
    (process_log_line lk l s).1.data.stats =
      { s.data.stats with
          round_types := rt_ensure s.data.stats.round_types (rust_trim g2) } := by
  unfold process_log_line pre_code
  rw [step_code_stats, step_round_end_id l _ h2, step_respawn_stats,
    step_survival_state, step_reborn_stats, step_death_stats, step_killers_stats]
  unfold step_round_start
  rw [hrs]

/-- C2 counterexample: from the default state, a round-start line for the
previously unseen round type `Classic`, then a death line, then a respawn
line (no round-end line anywhere) leave `stats.round_types` with a
`Classic` key that was not present before the round-start line: `stats`,
including its set of keys, is not equal to its prior value. -/
theorem c2_counterexample :
    rt_lookup (process_log_line lk0 c2_respawn_line (process_log_line lk0 c2_death_line
        (process_log_line lk0 c2_rs_line ({} : AppState)).1).1).1.data.stats.round_types
        ("Classic".data) = some {}
    ∧ rt_lookup ({} : AppState).data.stats.round_types ("Classic".data) = none
    ∧ (process_log_line lk0 c2_respawn_line (process_log_line lk0 c2_death_line
        (process_log_line lk0 c2_rs_line ({} : AppState)).1).1).1.data.stats
        ≠ ({} : AppState).data.stats := by
  refine ⟨by decide, by decide, ?_⟩
  decide

/-- C2 (amended): a respawn after a death, before any round-end, leaves
`stats` exactly equal to its value right after the round-start line was
processed; relative to the value from before the round-start line, every
counter is unchanged and the only possible change is the lazy insertion
of an empty bucket for the started round type (no change at all when that
type already has a bucket). -/
theorem c2_respawn_stats (lk : Lookup) (s : AppState) (rs dl pl g1 g2 : Str)
    (hrs : round_start_capture rs = some (g1, g2)) (hrs2 : round_end_match rs = false)
    (hd1 : death_match dl = true) (hd2 : round_start_capture dl = none)
    (hd3 : round_end_match dl = false)
    (hp1 : respawn_match pl = true) (hp2 : round_start_capture pl = none)
    (hp3 : round_end_match pl = false) :
    (process_log_line lk pl (process_log_line lk dl
        (process_log_line lk rs s).1).1).1.data.stats
      = (process_log_line lk rs s).1.data.stats
    ∧ (process_log_line lk rs s).1.data.stats.survivals = s.data.stats.survivals
    ∧ (process_log_line lk rs s).1.data.stats.deaths = s.data.stats.deaths
    ∧ (process_log_line lk rs s).1.data.stats.total_rounds = s.data.stats.total_rounds
    ∧ rt_lookup (process_log_line lk rs s).1.data.stats.round_types (rust_trim g2)
        = some ((rt_lookup s.data.stats.round_types (rust_trim g2)).getD {})
    ∧ ∀ k, k ≠ rust_trim g2 →
        rt_lookup (process_log_line lk rs s).1.data.stats.round_types k
          = rt_lookup s.data.stats.round_types k := by
  have hframe :
      (process_log_line lk pl (process_log_line lk dl
          (process_log_line lk rs s).1).1).1.data.stats
        = (process_log_line lk rs s).1.data.stats := by
    rw [process_log_line_stats_frame lk pl _ hp2 hp3,
      process_log_line_stats_frame lk dl _ hd2 hd3]
  have hrsstats := process_round_start_stats lk rs s g1 g2 hrs hrs2
  refine ⟨hframe, ?_, ?_, ?_, ?_, ?_⟩
  · rw [hrsstats]
  · rw [hrsstats]
  · rw [hrsstats]
  · rw [hrsstats]
    exact rt_ensure_lookup_self _ _
  · intro k hk
    rw [hrsstats]
    exact rt_ensure_lookup_other _ _ _ hk

/-- C2 witness: the amended statement at the concrete scenario lines from
the default state. -/
theorem c2_witness :
    (process_log_line lk0 c2_respawn_line (process_log_line lk0 c2_death_line
        (process_log_line lk0 c2_rs_line ({} : AppState)).1).1).1.data.stats
      = (process_log_line lk0 c2_rs_line ({} : AppState)).1.data.stats
    ∧ (process_log_line lk0 c2_rs_line ({} : AppState)).1.data.stats.survivals
        = ({} : AppState).data.stats.survivals
    ∧ (process_log_line lk0 c2_rs_line ({} : AppState)).1.data.stats.deaths
        = ({} : AppState).data.stats.deaths
    ∧ (process_log_line lk0 c2_rs_line ({} : AppState)).1.data.stats.total_rounds
        = ({} : AppState).data.stats.total_rounds
    ∧ rt_lookup (process_log_line lk0 c2_rs_line ({} : AppState)).1.data.stats.round_types
        (rust_trim ("Classic".data))
        = some ((rt_lookup ({} : AppState).data.stats.round_types
            (rust_trim ("Classic".data))).getD {})
    ∧ ∀ k, k ≠ rust_trim ("Classic".data) →
        rt_lookup (process_log_line lk0 c2_rs_line ({} : AppState)).1.data.stats.round_types k
          = rt_lookup ({} : AppState).data.stats.round_types k :=
  c2_respawn_stats lk0 ({} : AppState) c2_rs_line c2_death_line c2_respawn_line
    ("Facility".data) ("Classic".data) (by decide) (by decide) (by decide) (by decide)
    (by decide) (by decide) (by decide) (by decide)

/-- C4: a round-end line (firing no other pattern) increments exactly one
of the two global counters and the matching counter of the tracked round
type's bucket (default `Unknown`), chosen by the current `is_dead` flag,
and changes no other counter; a death with no reborn is tallied as a
death at round-end, and a death followed by a reborn is tallied as a
survival. -/
theorem c4_round_end_tally (lk : Lookup) :
    (∀ (l : Str) (s : AppState),
      round_end_match l = true → round_start_capture l = none →
      killers_capture l = none → death_match l = false → reborn_match l = false →
      survival_match l = false → respawn_match l = false → code_capture l = none →
      (s.current_round.is_dead = true →
          (process_log_line lk l s).1.data.stats.deaths = s.data.stats.deaths + 1
          ∧ (process_log_line lk l s).1.data.stats.survivals = s.data.stats.survivals
          ∧ rt_lookup (process_log_line lk l s).1.data.stats.round_types
              (s.current_round_type.getD ("Unknown".data))
            = some { survivals := ((rt_lookup s.data.stats.round_types
                        (s.current_round_type.getD ("Unknown".data))).getD {}).survivals,
                     deaths := ((rt_lookup s.data.stats.round_types
                        (s.current_round_type.getD ("Unknown".data))).getD {}).deaths + 1 })
      ∧ (s.current_round.is_dead = false →
          (process_log_line lk l s).1.data.stats.survivals = s.data.stats.survivals + 1
          ∧ (process_log_line lk l s).1.data.stats.deaths = s.data.stats.deaths
          ∧ rt_lookup (process_log_line lk l s).1.data.stats.round_types
              (s.current_round_type.getD ("Unknown".data))
            = some { survivals := ((rt_lookup s.data.stats.round_types
                        (s.current_round_type.getD ("Unknown".data))).getD {}).survivals + 1,
                     deaths := ((rt_lookup s.data.stats.round_types
                        (s.current_round_type.getD ("Unknown".data))).getD {}).deaths })
      ∧ (process_log_line lk l s).1.data.stats.total_rounds = s.data.stats.total_rounds
      ∧ ∀ k, k ≠ s.current_round_type.getD ("Unknown".data) →
          rt_lookup (process_log_line lk l s).1.data.stats.round_types k
            = rt_lookup s.data.stats.round_types k)
    ∧ (∀ (l1 l2 : Str) (s : AppState),
      death_match l1 = true → round_start_capture l1 = none → killers_capture l1 = none →
      reborn_match l1 = false → survival_match l1 = false → respawn_match l1 = false →
      round_end_match l1 = false → code_capture l1 = none →
      round_end_match l2 = true → round_start_capture l2 = none →
      killers_capture l2 = none → death_match l2 = false → reborn_match l2 = false →
      survival_match l2 = false → respawn_match l2 = false → code_capture l2 = none →
      (process_log_line lk l2 (process_log_line lk l1 s).1).1.data.stats.deaths
          = s.data.stats.deaths + 1
      ∧ (process_log_line lk l2 (process_log_line lk l1 s).1).1.data.stats.survivals
          = s.data.stats.survivals)
    ∧ (∀ (l1 l2 l3 : Str) (s : AppState),
      death_match l1 = true → round_start_capture l1 = none → killers_capture l1 = none →
      reborn_match l1 = false → survival_match l1 = false → respawn_match l1 = false →
      round_end_match l1 = false → code_capture l1 = none →
      reborn_match l2 = true → round_start_capture l2 = none → killers_capture l2 = none →
      death_match l2 = false → survival_match l2 = false → respawn_match l2 = false →
      round_end_match l2 = false → code_capture l2 = none →
      round_end_match l3 = true → round_start_capture l3 = none →
      killers_capture l3 = none → death_match l3 = false → reborn_match l3 = false →
      survival_match l3 = false → respawn_match l3 = false → code_capture l3 = none →
      (process_log_line lk l3 (process_log_line lk l2
          (process_log_line lk l1 s).1).1).1.data.stats.survivals
        = s.data.stats.survivals + 1
      ∧ (process_log_line lk l3 (process_log_line lk l2
          (process_log_line lk l1 s).1).1).1.data.stats.deaths
        = s.data.stats.deaths) := by
  refine ⟨?_, ?_, ?_⟩
  · intro l s hre h1 h2 h3 h4 h5 h6 h7
    rw [process_round_end_line lk l s hre h1 h2 h3 h4 h5 h6 h7]
    refine ⟨?_, ?_, ?_, ?_⟩
    · intro hdd
      simp [hdd, rt_modify_lookup_self]
    · intro hdd
      simp [hdd, rt_modify_lookup_self]
    · by_cases hdd : s.current_round.is_dead <;> simp [hdd]
    · intro k hk
      by_cases hdd : s.current_round.is_dead <;>
        simp [hdd, rt_modify_lookup_other _ _ _ _ hk]
  · intro l1 l2 s ha1 ha2 ha3 ha4 ha5 ha6 ha7 ha8 hb1 hb2 hb3 hb4 hb5 hb6 hb7 hb8
    rw [process_death_line lk l1 s ha1 ha2 ha3 ha4 ha5 ha6 ha7 ha8]
    rw [process_round_end_line lk l2 _ hb1 hb2 hb3 hb4 hb5 hb6 hb7 hb8]
    simp
  · intro l1 l2 l3 s ha1 ha2 ha3 ha4 ha5 ha6 ha7 ha8
      hb1 hb2 hb3 hb4 hb5 hb6 hb7 hb8 hc1 hc2 hc3 hc4 hc5 hc6 hc7 hc8
    rw [process_death_line lk l1 s ha1 ha2 ha3 ha4 ha5 ha6 ha7 ha8]
    rw [process_reborn_line lk l2 _ hb1 hb2 hb3 hb4 hb5 hb6 hb7 hb8]
    rw [process_round_end_line lk l3 _ hc1 hc2 hc3 hc4 hc5 hc6 hc7 hc8]
    simp

/-- C4 witness: the spec's two scenarios from the default state, with a
death tallied as a death and a death cancelled by a reborn tallied as a
survival. -/
theorem c4_witness :
    ((process_log_line lk0 c2_round_end_line (process_log_line lk0 c2_death_line
        ({} : AppState)).1).1.data.stats.deaths = ({} : AppState).data.stats.deaths + 1
      ∧ (process_log_line lk0 c2_round_end_line (process_log_line lk0 c2_death_line
        ({} : AppState)).1).1.data.stats.survivals = ({} : AppState).data.stats.survivals)
    ∧ ((process_log_line lk0 c2_round_end_line (process_log_line lk0 ("LOL JK, REBORN!".data)
        (process_log_line lk0 c2_death_line ({} : AppState)).1).1).1.data.stats.survivals
          = ({} : AppState).data.stats.survivals + 1
      ∧ (process_log_line lk0 c2_round_end_line (process_log_line lk0 ("LOL JK, REBORN!".data)
        (process_log_line lk0 c2_death_line ({} : AppState)).1).1).1.data.stats.deaths
          = ({} : AppState).data.stats.deaths) :=
  ⟨(c4_round_end_tally lk0).2.1 c2_death_line c2_round_end_line ({} : AppState)
      (by decide) (by decide) (by decide) (by decide) (by decide) (by decide) (by decide)
      (by decide) (by decide) (by decide) (by decide) (by decide) (by decide) (by decide)
      (by decide) (by decide),
   (c4_round_end_tally lk0).2.2 c2_death_line ("LOL JK, REBORN!".data) c2_round_end_line
      ({} : AppState)
      (by decide) (by decide) (by decide) (by decide) (by decide) (by decide) (by decide)
      (by decide) (by decide) (by decide) (by decide) (by decide) (by decide) (by decide)
      (by decide) (by decide) (by decide) (by decide) (by decide) (by decide) (by decide)
      (by decide) (by decide) (by decide)⟩

/-- C9: a round-end line processed while no round is active (the current
round info is the empty default and no round type is tracked) still
performs a tally: the global survivals counter and the `Unknown` bucket's
survivals counter are each incremented by 1, everything else counter-wise
is unchanged, and the current round info stays reset. -/
theorem c9_idle_round_end (lk : Lookup) (l : Str) (s : AppState)
    (hcr : s.current_round = {}) (hct : s.current_round_type = none)
    (hre : round_end_match l = true) (h1 : round_start_capture l = none)
    (h2 : killers_capture l = none) (h3 : death_match l = false)
    (h4 : reborn_match l = false) (h5 : survival_match l = false)
    (h6 : respawn_match l = false) (h7 : code_capture l = none) :
    (process_log_line lk l s).1.data.stats.survivals = s.data.stats.survivals + 1
    ∧ (process_log_line lk l s).1.data.stats.deaths = s.data.stats.deaths
    ∧ (process_log_line lk l s).1.data.stats.total_rounds = s.data.stats.total_rounds
    ∧ rt_lookup (process_log_line lk l s).1.data.stats.round_types ("Unknown".data)
        = some { survivals :=
                   ((rt_lookup s.data.stats.round_types ("Unknown".data)).getD {}).survivals + 1,
                 deaths :=
                   ((rt_lookup s.data.stats.round_types ("Unknown".data)).getD {}).deaths }
    ∧ (∀ k, k ≠ "Unknown".data →
        rt_lookup (process_log_line lk l s).1.data.stats.round_types k
          = rt_lookup s.data.stats.round_types k)
    ∧ (process_log_line lk l s).1.current_round = {} := by
  rw [process_round_end_line lk l s hre h1 h2 h3 h4 h5 h6 h7]
  have hdead : s.current_round.is_dead = false := by rw [hcr]
  refine ⟨by simp [hdead], by simp [hdead], by simp [hdead], ?_, ?_, by simp⟩
  · simp [hdead, hct, rt_modify_lookup_self]
  · intro k hk
    simp [hdead, hct, rt_modify_lookup_other _ _ _ _ hk]

/-- C9 witness: a bare `Verified Round End` line from the default state. -/
theorem c9_witness :
    (process_log_line lk0 c2_round_end_line ({} : AppState)).1.data.stats.survivals
        = ({} : AppState).data.stats.survivals + 1
    ∧ (process_log_line lk0 c2_round_end_line ({} : AppState)).1.data.stats.deaths
        = ({} : AppState).data.stats.deaths
    ∧ (process_log_line lk0 c2_round_end_line ({} : AppState)).1.data.stats.total_rounds
        = ({} : AppState).data.stats.total_rounds
    ∧ rt_lookup (process_log_line lk0 c2_round_end_line
          ({} : AppState)).1.data.stats.round_types ("Unknown".data)
        = some { survivals :=
                   ((rt_lookup ({} : AppState).data.stats.round_types
                      ("Unknown".data)).getD {}).survivals + 1,
                 deaths :=
                   ((rt_lookup ({} : AppState).data.stats.round_types
                      ("Unknown".data)).getD {}).deaths }
    ∧ (∀ k, k ≠ "Unknown".data →
        rt_lookup (process_log_line lk0 c2_round_end_line
            ({} : AppState)).1.data.stats.round_types k
          = rt_lookup ({} : AppState).data.stats.round_types k)
    ∧ (process_log_line lk0 c2_round_end_line ({} : AppState)).1.current_round = {} :=
  c9_idle_round_end lk0 c2_round_end_line ({} : AppState) (by decide) (by decide)
    (by decide) (by decide) (by decide) (by decide) (by decide) (by decide)
    (by decide) (by decide)

/-- C5: a code-capture line (firing no other pattern) appends a
`CodeEntry` whose code is the captured token, whose timestamp joins the
line's two leading whitespace-delimited tokens (empty when either is
absent), and whose round type is the tracked round type; while a round is
active it also records the save code on the current round and fills the
terror names from the lookup of each current killer id and the English
round type from the translation; when no round is active both enrichment
fields are `none`. -/
theorem c5_code_capture (lk : Lookup) (l : Str) (s : AppState) (code : Str)
    (hc : code_capture l = some code)
    (h1 : round_start_capture l = none) (h2 : killers_capture l = none)
    (h3 : death_match l = false) (h4 : reborn_match l = false)
    (h5 : survival_match l = false) (h6 : respawn_match l = false)
    (h7 : round_end_match l = false) :
    ∃ e : CodeEntry,
      (process_log_line lk l s).1.data.history.getLast? = some e
      ∧ (process_log_line lk l s).1.data.history <:+ s.data.history ++ [e]
      ∧ e.code = code
      ∧ e.timestamp =
          (if !(((split_whitespace l).get? 0).getD []).isEmpty
              && !(((split_whitespace l).get? 1).getD []).isEmpty
            then (((split_whitespace l).get? 0).getD []) ++ [' ']
                  ++ (((split_whitespace l).get? 1).getD [])
            else [])
      ∧ e.round_type = s.current_round_type
      ∧ (s.current_round.is_active = true →
          (process_log_line lk l s).1.current_round.save_code = some code
          ∧ e.round_type_english = s.current_round_type.map lk.round_type_to_english
          ∧ e.terror_names =
              (if s.current_round.killers.isEmpty then none
               else some (s.current_round.killers.map (fun id =>
                 (lk.get_terror_data id (s.current_round_type.getD ("Classic".data))).name))))
      ∧ (s.current_round.is_active = false →
          e.terror_names = none ∧ e.round_type_english = none) := by
  have er := process_code_line lk l s code hc h1 h2 h3 h4 h5 h6 h7
  refine ⟨mk_code_entry lk l code s, ?_, ?_, ?_, ?_, ?_, ?_, ?_⟩
  · rw [er]
    exact evict_old_getLast_concat _ _
  · rw [er]
    exact evict_old_suffix _
  · rfl
  · rfl
  · rfl
  · intro ha
    refine ⟨?_, ?_, ?_⟩
    · rw [er]
      simp [ha]
    · simp [mk_code_entry, ha]
    · simp only [mk_code_entry, ha]
      by_cases hks : s.current_round.killers.isEmpty
      · simp [hks, List.isEmpty_iff.mp hks]
      · have hne : ¬ s.current_round.killers = [] := by
          simpa [List.isEmpty_iff] using hks
        simp [hks, hne]
  · intro ha
    constructor <;> simp [mk_code_entry, ha]

/-- C5 witness: the spec's scenario line while a round is active with
round type `Classic` and killers 3 and 7. -/
theorem c5_witness :
    ∃ e : CodeEntry,
      (process_log_line lk0 c5_line c5_state).1.data.history.getLast? = some e
      ∧ (process_log_line lk0 c5_line c5_state).1.data.history <:+
          c5_state.data.history ++ [e]
      ∧ e.code = "12_34_56".data
      ∧ e.timestamp =
          (if !(((split_whitespace c5_line).get? 0).getD []).isEmpty
              && !(((split_whitespace c5_line).get? 1).getD []).isEmpty
            then (((split_whitespace c5_line).get? 0).getD []) ++ [' ']
                  ++ (((split_whitespace c5_line).get? 1).getD [])
            else [])
      ∧ e.round_type = c5_state.current_round_type
      ∧ (c5_state.current_round.is_active = true →
          (process_log_line lk0 c5_line c5_state).1.current_round.save_code
              = some ("12_34_56".data)
          ∧ e.round_type_english = c5_state.current_round_type.map lk0.round_type_to_english
          ∧ e.terror_names =
              (if c5_state.current_round.killers.isEmpty then none
               else some (c5_state.current_round.killers.map (fun id =>
                 (lk0.get_terror_data id
                   (c5_state.current_round_type.getD ("Classic".data))).name))))
      ∧ (c5_state.current_round.is_active = false →
          e.terror_names = none ∧ e.round_type_english = none) :=
  c5_code_capture lk0 c5_line c5_state ("12_34_56".data) (by decide) (by decide)
    (by decide) (by decide) (by decide) (by decide) (by decide) (by decide)

/-- C1 counterexample: with the clipboard constructed successfully but the
`set_text` write failing (second flag `false`), a marker-containing line
still updates the last-copied record, so the failed write is never
retried; the claim that a failed clipboard write leaves the record
unchanged is false. -/
theorem c1_counterexample :
    (maybe_copy_latest_code true false world_id c1_state).last_copied_code
        = some ("1234_5678".data)
    ∧ c1_state.last_copied_code = none
    ∧ maybe_copy_latest_code true false world_id c1_state ≠ c1_state := by
  refine ⟨by decide, by decide, by decide⟩

/-- C1 (amended): only a failure to acquire the clipboard
(`Clipboard::new`) leaves the state unchanged so that a later marker line
retries; once the clipboard is acquired on a qualifying marker line, the
last-copied record is updated to the latest code regardless of whether
the `set_text` write succeeded; and a marker line whose latest code
equals the last-copied record changes nothing, so a copy fires at most
once while the latest code stays unchanged. -/
theorem c1_copy_once_guard (a b : Bool) (line : Str) (s : AppState) :
    (a = false → maybe_copy_latest_code a b line s = s)
    ∧ (∀ e : CodeEntry, s.data.history.getLast? = some e →
        str_contains line world_id = true → s.last_copied_code ≠ some e.code →
        a = true →
        (maybe_copy_latest_code a b line s).last_copied_code = some e.code)
    ∧ (∀ e : CodeEntry, s.data.history.getLast? = some e →
        s.last_copied_code = some e.code →
        maybe_copy_latest_code a b line s = s) := by
  refine ⟨?_, ?_, ?_⟩
  · intro ha
    subst ha
    unfold maybe_copy_latest_code
    split
    · rfl
    · cases hg : s.data.history.getLast? with
      | none => rfl
      | some e =>
          simp only [Option.map_some]
          by_cases hlc : s.last_copied_code = some e.code <;> simp [hlc]
  · intro e he hw hne ha
    subst ha
    unfold maybe_copy_latest_code
    rw [hw, he]
    simp [hne]
  · intro e he heq
    unfold maybe_copy_latest_code
    split
    · rfl
    · rw [he]
      simp [heq]

/-- C1 witness: the three amended behaviours at concrete states. -/
theorem c1_witness :
    maybe_copy_latest_code false true world_id c1_state = c1_state
    ∧ (maybe_copy_latest_code true false world_id c1_state).last_copied_code
        = some ("1234_5678".data)
    ∧ maybe_copy_latest_code true true world_id
        { c1_state with last_copied_code := some ("1234_5678".data) }
      = { c1_state with last_copied_code := some ("1234_5678".data) } :=
  ⟨(c1_copy_once_guard false true world_id c1_state).1 rfl,
   (c1_copy_once_guard true false world_id c1_state).2.1 c1_entry (by decide) (by decide)
     (by decide) rfl,
   (c1_copy_once_guard true true world_id
       { c1_state with last_copied_code := some ("1234_5678".data) }).2.2 c1_entry
     (by decide) (by decide)⟩

/-! ## Frame lemmas towards the tick characterization -/

theorem maybe_copy_current_round (a b : Bool) (l : Str) (s : AppState) :
    (maybe_copy_latest_code a b l s).current_round = s.current_round := by
  unfold maybe_copy_latest_code
  split
  · rfl
  · cases hg : s.data.history.getLast? with
    | none => rfl
    | some e =>
        simp only [Option.map_some]
        by_cases hlc : s.last_copied_code = some e.code <;> by_cases ha : a <;>
          simp [hlc, ha]

theorem maybe_copy_settings (a b : Bool) (l : Str) (s : AppState) :
    (maybe_copy_latest_code a b l s).settings = s.settings := by
  unfold maybe_copy_latest_code
  split
  · rfl
  · cases hg : s.data.history.getLast? with
    | none => rfl
    | some e =>
        simp only [Option.map_some]
        by_cases hlc : s.last_copied_code = some e.code <;> by_cases ha : a <;>
          simp [hlc, ha]

theorem step_round_start_settings (l : Str) (se : AppState × LogEvent) :
    (step_round_start l se).1.settings = se.1.settings := by
  unfold step_round_start
  cases h : round_start_capture l with
  | none => rfl
  | some p => simp

theorem step_killers_settings (l : Str) (se : AppState × LogEvent) :
    (step_killers l se).1.settings = se.1.settings := by
  unfold step_killers
  cases h : killers_capture l with
  | none => rfl
  | some p =>
      obtain ⟨d1, d2, d3, g4⟩ := p
      cases g4 with
      | none => simp
      | some rts => by_cases hrt : se.1.current_round.round_type = none <;> simp [hrt]

theorem step_death_settings (l : Str) (se : AppState × LogEvent) :
    (step_death l se).1.settings = se.1.settings := by
  unfold step_death
  by_cases h : death_match l <;> simp [h]

theorem step_reborn_settings (l : Str) (se : AppState × LogEvent) :
    (step_reborn l se).1.settings = se.1.settings := by
  unfold step_reborn
  by_cases h : reborn_match l <;> simp [h]

theorem step_respawn_settings (l : Str) (se : AppState × LogEvent) :
    (step_respawn l se).1.settings = se.1.settings := by
  unfold step_respawn
  by_cases h : respawn_match l <;> simp [h]

theorem step_round_end_settings (l : Str) (se : AppState × LogEvent) :
    (step_round_end l se).1.settings = se.1.settings := by
  unfold step_round_end
  by_cases h : round_end_match l <;> simp [h]

theorem step_code_settings (lk : Lookup) (l : Str) (se : AppState × LogEvent) :
    (step_code lk l se).1.settings = se.1.settings := by
  unfold step_code
  cases h : code_capture l with
  | none => rfl
  | some code => by_cases ha : se.1.current_round.is_active <;> simp [ha]

theorem process_log_line_settings (lk : Lookup) (l : Str) (s : AppState) :
    (process_log_line lk l s).1.settings = s.settings := by
  unfold process_log_line pre_code
  rw [step_code_settings, step_round_end_settings, step_respawn_settings,
    step_survival_state, step_reborn_settings, step_death_settings,
    step_killers_settings, step_round_start_settings]

theorem process_tick_from_settings (lk : Lookup) (clip : Nat → Bool × Bool) :
    ∀ (ls : List Str) (i : Nat) (s : AppState) (f : TickFlags),
      (process_tick_from lk clip i ls s f).1.settings = s.settings := by
  intro ls
  induction ls with
  | nil => intro i s f; rfl
  | cons l ls ih =>
      intro i s f
      have hstep : process_tick_from lk clip i (l :: ls) s f
          = process_tick_from lk clip (i + 1) ls
              (maybe_copy_latest_code (clip i).1 (clip i).2 l (process_log_line lk l s).1)
              (tick_flags_update f (process_log_line lk l s).2 (process_log_line lk l s).1) :=
        rfl
      rw [hstep, ih, maybe_copy_settings, process_log_line_settings]

theorem process_tick_from_flags (lk : Lookup) (clip : Nat → Bool × Bool) :
    ∀ (ls : List Str) (i : Nat) (s : AppState) (f : TickFlags),
    ((process_tick_from lk clip i ls s f).2.should_emit_state = true ↔
        (f.should_emit_state = true
          ∨ ∃ p ∈ tick_trace_from lk clip i ls s, p.2 ≠ LogEvent.None))
    ∧ ((process_tick_from lk clip i ls s f).2.round_ended = true ↔
        (f.round_ended = true
          ∨ ∃ p ∈ tick_trace_from lk clip i ls s, p.2 = LogEvent.RoundEnded))
    ∧ ((process_tick_from lk clip i ls s f).2.killers_changed = true ↔
        (f.killers_changed = true
          ∨ ∃ p ∈ tick_trace_from lk clip i ls s,
              p.2 = LogEvent.StateChanged ∧ p.1.current_round.killers ≠ [])) := by
  intro ls
  induction ls with
  | nil =>
      intro i s f
      simp [process_tick_from, tick_trace_from]
  | cons l ls ih =>
      intro i s f
      have hstep : process_tick_from lk clip i (l :: ls) s f
          = process_tick_from lk clip (i + 1) ls
              (maybe_copy_latest_code (clip i).1 (clip i).2 l (process_log_line lk l s).1)
              (tick_flags_update f (process_log_line lk l s).2 (process_log_line lk l s).1) :=
        rfl
      have htr : tick_trace_from lk clip i (l :: ls) s
          = (maybe_copy_latest_code (clip i).1 (clip i).2 l (process_log_line lk l s).1,
             (process_log_line lk l s).2)
            :: tick_trace_from lk clip (i + 1) ls
                (maybe_copy_latest_code (clip i).1 (clip i).2 l (process_log_line lk l s).1) :=
        rfl
      obtain ⟨ih1, ih2, ih3⟩ := ih (i + 1)
        (maybe_copy_latest_code (clip i).1 (clip i).2 l (process_log_line lk l s).1)
        (tick_flags_update f (process_log_line lk l s).2 (process_log_line lk l s).1)
      rw [hstep, htr]
      refine ⟨?_, ?_, ?_⟩
      · rw [ih1]
        cases hev : (process_log_line lk l s).2 <;>
          simp [tick_flags_update, List.exists_mem_cons_iff, or_assoc]
      · rw [ih2]
        cases hev : (process_log_line lk l s).2 <;>
          simp [tick_flags_update, List.exists_mem_cons_iff, or_assoc]
      · rw [ih3]
        cases hev : (process_log_line lk l s).2 with
        | None => simp [tick_flags_update, List.exists_mem_cons_iff, or_assoc]
        | RoundStarted => simp [tick_flags_update, List.exists_mem_cons_iff, or_assoc]
        | RoundEnded => simp [tick_flags_update, List.exists_mem_cons_iff, or_assoc]
        | StateChanged =>
            by_cases hke : (process_log_line lk l s).1.current_round.killers.isEmpty
            · have hkemp : (process_log_line lk l s).1.current_round.killers = [] :=
                List.isEmpty_iff.mp hke
              simp [tick_flags_update, hke, List.exists_mem_cons_iff, or_assoc,
                maybe_copy_current_round, hkemp]
            · have hkne : ¬ (process_log_line lk l s).1.current_round.killers = [] := by
                simpa [List.isEmpty_iff] using hke
              simp [tick_flags_update, hke, List.exists_mem_cons_iff, or_assoc,
                maybe_copy_current_round, hkne]

theorem tick_vr_sends_update_iff (lk : Lookup) (clip : Nat → Bool × Bool)
    (lines : List Str) (s : AppState) :
    (∃ ts rt, VrCommand.UpdateTerrors ts rt ∈ tick_vr_sends lk clip lines s) ↔
      ((process_tick lk clip lines s).1.settings.vr_overlay_enabled = true
        ∧ (process_tick lk clip lines s).2.should_emit_state = true
        ∧ (process_tick lk clip lines s).2.killers_changed = true
        ∧ (process_tick lk clip lines s).1.current_round.killers ≠ []) := by
  unfold tick_vr_sends
  by_cases h1 : (process_tick lk clip lines s).2.should_emit_state
  · by_cases h2 : (process_tick lk clip lines s).1.settings.vr_overlay_enabled
    · by_cases h3 : (process_tick lk clip lines s).2.killers_changed
      · by_cases h4 : (process_tick lk clip lines s).1.current_round.killers.isEmpty
        · have h4' := List.isEmpty_iff.mp h4
          by_cases h5 : (process_tick lk clip lines s).2.round_ended <;>
            simp [h1, h2, h3, h4, h4', h5]
        · have h4' : ¬ (process_tick lk clip lines s).1.current_round.killers = [] := by
            simpa [List.isEmpty_iff] using h4
          by_cases h5 : (process_tick lk clip lines s).2.round_ended <;>
            simp [h1, h2, h3, h4, h4', h5]
      · by_cases h5 : (process_tick lk clip lines s).2.round_ended <;>
          simp [h1, h2, h3, h5]
    · simp [h1, h2]
  · simp [h1]

theorem tick_vr_sends_clear_iff (lk : Lookup) (clip : Nat → Bool × Bool)
    (lines : List Str) (s : AppState) :
    (VrCommand.Clear ∈ tick_vr_sends lk clip lines s) ↔
      ((process_tick lk clip lines s).1.settings.vr_overlay_enabled = true
        ∧ (process_tick lk clip lines s).2.should_emit_state = true
        ∧ (process_tick lk clip lines s).2.round_ended = true) := by
  unfold tick_vr_sends
  by_cases h1 : (process_tick lk clip lines s).2.should_emit_state
  · by_cases h2 : (process_tick lk clip lines s).1.settings.vr_overlay_enabled
    · by_cases h5 : (process_tick lk clip lines s).2.round_ended <;>
        by_cases h3 : ((process_tick lk clip lines s).2.killers_changed
            && !(process_tick lk clip lines s).1.current_round.killers.isEmpty) <;>
          simp [h1, h2, h3, h5]
    · simp [h1, h2]
  · simp [h1]

theorem process_tick_flags (lk : Lookup) (clip : Nat → Bool × Bool)
    (lines : List Str) (s : AppState) :
    ((process_tick lk clip lines s).2.should_emit_state = true ↔
        ∃ p ∈ tick_trace lk clip lines s, p.2 ≠ LogEvent.None)
    ∧ ((process_tick lk clip lines s).2.round_ended = true ↔
        ∃ p ∈ tick_trace lk clip lines s, p.2 = LogEvent.RoundEnded)
    ∧ ((process_tick lk clip lines s).2.killers_changed = true ↔
        ∃ p ∈ tick_trace lk clip lines s,
          p.2 = LogEvent.StateChanged ∧ p.1.current_round.killers ≠ []) := by
  obtain ⟨h1, h2, h3⟩ := process_tick_from_flags lk clip lines 0 s {}
  refine ⟨?_, ?_, ?_⟩
  · unfold process_tick tick_trace
    rw [h1]
    simp
  · unfold process_tick tick_trace
    rw [h2]
    simp
  · unfold process_tick tick_trace
    rw [h3]
    simp

theorem process_tick_settings (lk : Lookup) (clip : Nat → Bool × Bool)
    (lines : List Str) (s : AppState) :
    (process_tick lk clip lines s).1.settings = s.settings :=
  process_tick_from_settings lk clip lines 0 s {}

/-- C6 counterexample: with the overlay enabled, killers `[3]` already set
in an earlier tick and a tick consisting of the single line `You died.`,
an `UpdateTerrors` command is sent even though the killers list never
newly became non-empty during the tick. -/
theorem c6_counterexample :
    VrCommand.UpdateTerrors [{ name := [] }] ("Classic".data)
        ∈ tick_vr_sends lk0 clip0 [c2_death_line] c6_state
    ∧ killers_newly_nonempty lk0 clip0 [c2_death_line] c6_state = false := by
  refine ⟨by decide, by decide⟩

/-- C6 (amended): within one tick, `UpdateTerrors` is sent iff the
overlay is enabled, some line of the tick produced a plain state-change
event while the killers list was non-empty right after that line, and the
killers list is still non-empty at the end of the tick; `Clear` is sent
iff the overlay is enabled and some line produced a round-ended event
(a round-end or a respawn line). -/
theorem c6_tick_sends (lk : Lookup) (clip : Nat → Bool × Bool)
    (lines : List Str) (s : AppState) :
    ((∃ ts rt, VrCommand.UpdateTerrors ts rt ∈ tick_vr_sends lk clip lines s) ↔
      (s.settings.vr_overlay_enabled = true
        ∧ (∃ p ∈ tick_trace lk clip lines s,
            p.2 = LogEvent.StateChanged ∧ p.1.current_round.killers ≠ [])
        ∧ (process_tick lk clip lines s).1.current_round.killers ≠ []))
    ∧ ((VrCommand.Clear ∈ tick_vr_sends lk clip lines s) ↔
      (s.settings.vr_overlay_enabled = true
        ∧ ∃ p ∈ tick_trace lk clip lines s, p.2 = LogEvent.RoundEnded)) := by
  have hfl := process_tick_flags lk clip lines s
  constructor
  · rw [tick_vr_sends_update_iff, process_tick_settings]
    constructor
    · rintro ⟨hvr, hemit, hkcf, hk⟩
      exact ⟨hvr, hfl.2.2.mp hkcf, hk⟩
    · rintro ⟨hvr, hex, hk⟩
      refine ⟨hvr, ?_, hfl.2.2.mpr hex, hk⟩
      apply hfl.1.mpr
      obtain ⟨p, hp, hp2, _⟩ := hex
      exact ⟨p, hp, by simp [hp2]⟩
  · rw [tick_vr_sends_clear_iff, process_tick_settings]
    constructor
    · rintro ⟨hvr, hemit, href⟩
      exact ⟨hvr, hfl.2.1.mp href⟩
    · rintro ⟨hvr, hex⟩
      refine ⟨hvr, ?_, hfl.2.1.mpr hex⟩
      apply hfl.1.mpr
      obtain ⟨p, hp, hp2⟩ := hex
      exact ⟨p, hp, by simp [hp2]⟩

/-! ## Base64 facts for the framing claim -/

theorem b64_val_b64_char : ∀ n, n < 64 → b64_val (b64_char n) = some n := by decide

theorem b64_char_mem (n : Nat) : b64_char n ∈ b64_alphabet := by
  unfold b64_char List.getD
  cases h : b64_alphabet[n]? with
  | none => simp [h]; decide
  | some c =>
      simp [h]
      exact List.getElem?_mem h

theorem b64_char_ne_pad (n : Nat) : b64_char n ≠ '=' := by
  intro h
  have := b64_char_mem n
  rw [h] at this
  exact absurd this (by decide)

/-- Base64 decoding inverts the encoding on byte lists. -/
theorem base64_roundtrip : ∀ bs : List Nat, (∀ x ∈ bs, x < 256) →
    base64_decode (base64_encode bs) = some bs
  | [], _ => rfl
  | [a], h => by
      have ha : a < 256 := h a (by simp)
      unfold base64_encode base64_decode
      rw [b64_val_b64_char _ (by omega), b64_val_b64_char _ (by omega)]
      simp
      omega
  | [a, b], h => by
      have ha : a < 256 := h a (by simp)
      have hb : b < 256 := h b (by simp)
      unfold base64_encode base64_decode
      rw [b64_val_b64_char _ (by omega), b64_val_b64_char _ (by omega)]
      simp [b64_char_ne_pad]
      rw [b64_val_b64_char _ (by omega)]
      simp
      omega
  | [a, b, c], h => by
      have ha : a < 256 := h a (by simp)
      have hb : b < 256 := h b (by simp)
      have hc : c < 256 := h c (by simp)
      unfold base64_encode base64_decode
      rw [b64_val_b64_char _ (by omega), b64_val_b64_char _ (by omega)]
      simp [b64_char_ne_pad]
      rw [b64_val_b64_char _ (by omega), b64_val_b64_char _ (by omega)]
      have hnil : base64_decode (base64_encode []) = some [] := rfl
      rw [hnil]
      simp
      omega
  | a :: b :: c :: d :: rest, h => by
      have ha : a < 256 := h a (by simp)
      have hb : b < 256 := h b (by simp)
      have hc : c < 256 := h c (by simp)
      have ih := base64_roundtrip (d :: rest) (fun x hx => h x (by simp [hx]))
      unfold base64_encode base64_decode
      rw [b64_val_b64_char _ (by omega), b64_val_b64_char _ (by omega)]
      simp [b64_char_ne_pad]
      rw [b64_val_b64_char _ (by omega), b64_val_b64_char _ (by omega), ih]
      simp
      omega

theorem base64_encode_mem : ∀ (bs : List Nat) (c : Char), c ∈ base64_encode bs →
    c ∈ b64_alphabet ∨ c = '='
  | [], c, h => by simp [base64_encode] at h
  | [a], c, h => by
      simp [base64_encode] at h
      rcases h with h | h | h
      · exact Or.inl (h ▸ b64_char_mem _)
      · exact Or.inl (h ▸ b64_char_mem _)
      · exact Or.inr h
  | [a, b], c, h => by
      simp [base64_encode] at h
      rcases h with h | h | h | h
      · exact Or.inl (h ▸ b64_char_mem _)
      · exact Or.inl (h ▸ b64_char_mem _)
      · exact Or.inl (h ▸ b64_char_mem _)
      · exact Or.inr h
  | a :: b :: d :: rest, c, h => by
      rw [show base64_encode (a :: b :: d :: rest)
          = b64_char (a / 4) :: b64_char (a % 4 * 16 + b / 16)
            :: b64_char (b % 16 * 4 + d / 64) :: b64_char (d % 64)
            :: base64_encode rest from rfl] at h
      simp only [List.mem_cons] at h
      rcases h with h | h | h | h | h
      · exact Or.inl (h ▸ b64_char_mem _)
      · exact Or.inl (h ▸ b64_char_mem _)
      · exact Or.inl (h ▸ b64_char_mem _)
      · exact Or.inl (h ▸ b64_char_mem _)
      · exact base64_encode_mem rest c h

theorem base64_no_newline (bs : List Nat) : '\n' ∉ base64_encode bs := by
  intro h
  rcases base64_encode_mem bs '\n' h with hm | he
  · exact absurd hm (by decide)
  · exact absurd he (by decide)

theorem char_toNat_lt (c : Char) : c.toNat < 1114112 := by
  rcases c.valid with h | h
  · exact Nat.lt_trans h (by norm_num)
  · exact h.2

theorem utf8_encode_char_lt (c : Char) : ∀ x ∈ utf8_encode_char c, x < 256 := by
  intro x hx
  have hc := char_toNat_lt c
  simp only [utf8_encode_char] at hx
  split at hx
  · simp at hx
    omega
  · split at hx
    · simp at hx
      rcases hx with h | h <;> omega
    · split at hx
      · simp at hx
        rcases hx with h | h | h <;> omega
      · simp at hx
        rcases hx with h | h | h | h <;> omega

theorem utf8_encode_lt (s : Str) : ∀ x ∈ utf8_encode s, x < 256 := by
  intro x hx
  unfold utf8_encode at hx
  rw [List.mem_flatten] at hx
  obtain ⟨l, hl, hxl⟩ := hx
  rw [List.mem_map] at hl
  obtain ⟨c, _, rfl⟩ := hl
  exact utf8_encode_char_lt c x hxl

/-- C7 counterexample: the `Quit` written during `stop_vr_overlay` is the
raw JSON line, not the marker-prefixed base64 framing that
`send_vr_command` produces for the same command. -/
theorem c7_counterexample :
    ¬ (("b64:".data).isPrefixOf stop_quit_written_line)
    ∧ stop_quit_written_line ≠ send_vr_written_line VrCommand.Quit := by
  refine ⟨by decide, by decide⟩

/-- C7 (amended): every command written via `send_vr_command` is one
newline-terminated line whose body carries no newline, starts with the
fixed `b64:` marker, and whose remainder base64-decodes back to the exact
serialized payload; the `Quit` sent during Stop's graceful shutdown is
instead written as the raw JSON string with no marker and no encoding. -/
theorem c7_send_framing (cmd : VrCommand) :
    ∃ body : Str,
      send_vr_written_line cmd = body ++ ['\n']
      ∧ '\n' ∉ body
      ∧ body.take 4 = "b64:".data
      ∧ base64_decode (body.drop 4) = some (utf8_encode (vr_command_json cmd)) := by
  refine ⟨"b64:".data ++ base64_encode (utf8_encode (vr_command_json cmd)),
    by simp [send_vr_written_line], ?_, rfl, ?_⟩
  · intro hm
    rcases List.mem_append.mp hm with h | h
    · exact absurd h (by decide)
    · exact base64_no_newline _ h
  · have hdrop : (("b64:".data ++ base64_encode (utf8_encode (vr_command_json cmd))).drop 4)
        = base64_encode (utf8_encode (vr_command_json cmd)) := rfl
    rw [hdrop]
    exact base64_roundtrip _ (utf8_encode_lt _)

/-! ## Facts about delta splitting for the partial-tail claim -/

theorem split_incl_nl_aux_tail : ∀ (t : Str) (acc : Str), t ≠ [] → '\n' ∉ t →
    split_incl_nl_aux acc t = [acc.reverse ++ t]
  | [], _, h, _ => absurd rfl h
  | c :: r, acc, _, h2 => by
      have hc : ¬ c = '\n' := fun hh => h2 (by simp [hh])
      unfold split_incl_nl_aux
      rw [if_neg hc]
      cases r with
      | nil =>
          unfold split_incl_nl_aux
          simp
      | cons c2 r2 =>
          have ih := split_incl_nl_aux_tail (c2 :: r2) (c :: acc) (by simp)
            (fun hm => h2 (List.mem_cons_of_mem _ hm))
          rw [ih]
          simp

theorem split_incl_nl_aux_append : ∀ (pre : Str) (acc rest : Str),
    pre.getLast? = some '\n' →
    split_incl_nl_aux acc (pre ++ rest)
      = split_incl_nl_aux acc pre ++ split_incl_nl_aux [] rest
  | [], _, _, h => by simp at h
  | c :: pre', acc, rest, h => by
      by_cases hc : c = '\n'
      · subst hc
        rw [List.cons_append]
        have hstep : ∀ (a x : Str),
            split_incl_nl_aux a ('\n' :: x) = (('\n' :: a).reverse) :: split_incl_nl_aux [] x := by
          intro a x
          unfold split_incl_nl_aux
          rw [if_pos rfl]
          cases x <;> rfl
        rw [hstep acc (pre' ++ rest), hstep acc pre']
        cases pre' with
        | nil => simp [split_incl_nl_aux]
        | cons d pre'' =>
            have hlast : (d :: pre'').getLast? = some '\n' := by
              rw [List.getLast?_cons_cons] at h
              exact h
            have ih := split_incl_nl_aux_append (d :: pre'') [] rest hlast
            rw [ih]
            simp
      · have hpre' : pre'.getLast? = some '\n' := by
          cases pre' with
          | nil =>
              simp at h
              exact absurd h hc
          | cons d p =>
              rw [List.getLast?_cons_cons] at h
              exact h
        rw [List.cons_append]
        have hstep : ∀ (x : Str),
            split_incl_nl_aux acc (c :: x) = split_incl_nl_aux (c :: acc) x := by
          intro x
          unfold split_incl_nl_aux
          rw [if_neg hc]
          cases x <;> rfl
        rw [hstep (pre' ++ rest), hstep pre']
        exact split_incl_nl_aux_append pre' (c :: acc) rest hpre'

theorem getLast?_mem_of_ne_nil {α : Type} (l : List α) (a : α)
    (h : l.getLast? = some a) : a ∈ l := by
  cases l with
  | nil => simp at h
  | cons x t =>
      rw [List.getLast?_eq_getLast _ (by simp)] at h
      have hmem := List.getLast_mem (show x :: t ≠ [] by simp)
      rw [Option.some_inj.mp h] at hmem
      exact hmem

theorem lines_map_fn_id (t : Str) (h : '\n' ∉ t) : lines_map_fn t = t := by
  unfold lines_map_fn
  split
  · rename_i heq
    exact absurd (getLast?_mem_of_ne_nil t _ heq) h
  · rfl

theorem rust_lines_tail_kept (pre tail : Str) (h1 : tail ≠ []) (h2 : '\n' ∉ tail)
    (h3 : pre = [] ∨ pre.getLast? = some '\n') :
    rust_lines (pre ++ tail) = rust_lines pre ++ [tail] := by
  rcases h3 with h3 | h3
  · subst h3
    unfold rust_lines split_incl_nl
    rw [List.nil_append, split_incl_nl_aux_tail tail [] h1 h2]
    simp [lines_map_fn_id tail h2, split_incl_nl_aux]
  · unfold rust_lines split_incl_nl
    rw [split_incl_nl_aux_append pre [] tail h3, split_incl_nl_aux_tail tail [] h1 h2]
    simp [lines_map_fn_id tail h2]

theorem utf8_len_append (a b : Str) : utf8_len (a ++ b) = utf8_len a + utf8_len b := by
  unfold utf8_len utf8_encode
  rw [List.map_append, List.flatten_append, List.length_append]

/-- C10: when the freshly read delta ends in a partial line without a
terminator, the splitting used by the tick yields that partial text as a
final line of the same tick, and the tracked offset advances by the byte
count of the whole delta, partial tail included, so those bytes are not
re-read later. -/
theorem c10_tail_processed (lk : Lookup) (clip : Nat → Bool × Bool)
    (pre tail : Str) (s : AppState)
    (h1 : tail ≠ []) (h2 : '\n' ∉ tail) (h3 : pre = [] ∨ pre.getLast? = some '\n') :
    rust_lines (pre ++ tail) = rust_lines pre ++ [tail]
    ∧ tail ∈ rust_lines (pre ++ tail)
    ∧ (monitor_tick lk clip (pre ++ tail) s).1.last_offset
        = s.last_offset + utf8_len pre + utf8_len tail := by
  have hsplit := rust_lines_tail_kept pre tail h1 h2 h3
  refine ⟨hsplit, ?_, ?_⟩
  · rw [hsplit]
    simp
  · show s.last_offset + utf8_len (pre ++ tail) = _
    rw [utf8_len_append]
    omega

/-- C10 witness: a delta `"a\npartial"` whose tail has no terminator. -/
theorem c10_witness :
    rust_lines ("a\n".data ++ "partial".data) = rust_lines ("a\n".data) ++ ["partial".data]
    ∧ "partial".data ∈ rust_lines ("a\n".data ++ "partial".data)
    ∧ (monitor_tick lk0 clip0 ("a\n".data ++ "partial".data) ({} : AppState)).1.last_offset
        = ({} : AppState).last_offset + utf8_len ("a\n".data) + utf8_len ("partial".data) :=
  c10_tail_processed lk0 clip0 ("a\n".data) ("partial".data) ({} : AppState)
    (by decide) (by decide) (by decide)
